import Mathlib

/-!
Verification of the analytics core of an e-commerce sales-analyst service.

The development shallowly embeds the four analytics components
(time range resolver, sales aggregation engine, geographic hierarchy
extractor, anomaly detection engine) in Lean and proves or refutes the
frozen specification claims about them.

Modelling conventions, used throughout:
* Python floats (prices, revenue) are modelled as exact rationals `ℚ`;
  statistics whose values are genuinely irrational (square roots in
  z-scores, the exponential in Poisson tail probabilities) live in `ℝ`.
* Python `datetime` instants are integers counting microseconds since the
  Unix epoch; `timedelta.days` is floor division by the microseconds of a
  day, which is `Int.fdiv`.
* Python dicts are insertion-ordered association lists.
* Python's `sorted` is a stable sort; `insSort` below is the canonical
  stable insertion sort, which agrees with any stable sort for the same
  boolean comparison.
-/

set_option maxRecDepth 8000

/-- Stable insertion of `x` into a list: `x` is placed before the first
element `y` with `le x y`, hence before later equal elements and after
earlier ones. -/
def insSortAux (le : α → α → Bool) (x : α) : List α → List α
  | [] => [x]
  | y :: ys => if le x y then x :: y :: ys else y :: insSortAux le x ys

/-- Stable insertion sort; extensionally equal to Python's stable `sorted`
for the same comparison. -/
def insSort (le : α → α → Bool) : List α → List α
  | [] => []
  | x :: xs => insSortAux le x (insSort le xs)

/-- Python's `d[k] = f(d[k] if k in d else init)` on an insertion-ordered
dict: update the value stored at `k`, inserting `f init` at the end when
the key is new. -/
def updOrInsert (k : String) (f : β → β) (init : β) : List (String × β) → List (String × β)
  | [] => [(k, f init)]
  | (k', v) :: rest =>
      if k' = k then (k', f v) :: rest else (k', v) :: updOrInsert k f init rest

/-- Python's `d.get(k)` on an association list. -/
def assocFind? (k : String) : List (String × β) → Option β
  | [] => none
  | (k', v) :: rest => if k' = k then some v else assocFind? k rest

/-- Microseconds in one calendar day. -/
def usPerDay : ℤ := 86400000000

/-- Microseconds in one hour. -/
def usPerHour : ℤ := 3600000000

/-- Calendar day of an instant (`datetime.date()` / pandas `.dt.date`),
as a day count since the epoch. -/
def dayOf (t : ℤ) : ℤ := t.fdiv usPerDay

/-- Hour of day of an instant (`.dt.hour`). -/
def hourOf (t : ℤ) : ℤ := (t.fdiv usPerHour).emod 24

/-- Day of week of an instant (`.dt.dayofweek`, Monday = 0; the Unix
epoch day 1970-01-01 was a Thursday, day-of-week 3). -/
def dowOf (t : ℤ) : ℤ := (dayOf t + 3).emod 7

/-- The instant floored to the hour (pandas `.dt.floor("H")`). -/
def hourFloor (t : ℤ) : ℤ := t.fdiv usPerHour * usPerHour

/-! ## Data model

`app/db/models.py`: an order row carries a float `total_price`, a naive
UTC `order_date` and eagerly loaded `order_items`; an order item carries
a nullable `product_id`, a `platform_product_id`, a `product_name`, an
integer `quantity` and a float `price`.  The raw platform payload
(`order_data`) is modelled separately with the geographic extractor. -/

/-- Presence states of a key in a JSON object: missing, present with a
null (or otherwise unusable) value, or present with a usable value. -/
inductive JVal (α : Type) where
  | absent : JVal α
  | null : JVal α
  | val : α → JVal α
deriving DecidableEq

/-- An address candidate inside the raw order payload; every field is
optional, `none` standing for an absent or null key. -/
structure Address where
  country : Option String
  province : Option String
  city : Option String
  district : Option String
  barangay : Option String
  suburb : Option String
  address1 : Option String
  address2 : Option String
deriving DecidableEq

/-- The nested `shipping` object: `order_data['shipping'].get('address')`. -/
structure ShippingObj where
  address : Option Address
deriving DecidableEq

/-- The nested `customer` object with its two address candidates. -/
structure Customer where
  default_address : JVal Address
  addresses : Option (List Address)
deriving DecidableEq

/-- The probed keys of a raw order payload (`order.order_data`).  A key
whose value is present but not of the probed shape (a non-dict
`shipping`/`customer`) is modelled as `none`; for directly probed
address keys `JVal.null` records a present-but-null value. -/
structure OrderData where
  shipping_address : JVal Address
  shipping : Option ShippingObj
  customer : Option Customer
  billing_address : JVal Address
deriving DecidableEq

/-- One order line item (`models.OrderItem`). -/
structure OrderItem where
  product_id : Option String
  platform_product_id : String
  product_name : String
  quantity : ℤ
  price : ℚ
deriving DecidableEq

/-- One order (`models.Order`).  `order_data = none` models a missing or
unparseable raw payload. -/
structure Order where
  total_price : ℚ
  order_date : ℤ
  order_items : List OrderItem
  order_data : Option OrderData
deriving DecidableEq

/-! ## Sales aggregation engine

`app/services/analytics.py`, `get_sales_data` (lines 49-282).  The
database fetch, the optional geographic/conversion enrichment and the
response formatting of timestamps are the excluded collaborators' side;
the embedding covers the pure aggregation over the two fetched order
sets. -/

/-- Lines 73-76: the comparison window.  `duration` is
`(end_date - start_date).days + 1`; both bounds are shifted back by that
many days.  The order fetches use closed `[start, end]` bounds. -/
def prev_period (start_date end_date : ℤ) : ℤ × ℤ :=
  let duration := (end_date - start_date).fdiv usPerDay + 1
  (start_date - duration * usPerDay, end_date - duration * usPerDay)

/-- Line 90: `total_sales = sum(order.total_price for order in orders)`. -/
def total_sales (orders : List Order) : ℚ :=
  (orders.map (fun o => o.total_price)).sum

/-- Line 92: average order value, `0` when there are no orders. -/
def average_order_value (orders : List Order) : ℚ :=
  if 0 < orders.length then total_sales orders / (orders.length : ℚ) else 0

/-- Line 99: period-over-period sales change, `0` when the previous
period had no (positive) sales. -/
def sales_change (orders prev_orders : List Order) : ℚ :=
  if 0 < total_sales prev_orders then
    (total_sales orders - total_sales prev_orders) / total_sales prev_orders
  else 0

/-- Line 100: period-over-period order-count change. -/
def orders_change (orders prev_orders : List Order) : ℚ :=
  if 0 < (prev_orders.length : ℚ) then
    ((orders.length : ℚ) - (prev_orders.length : ℚ)) / (prev_orders.length : ℚ)
  else 0

/-- Line 101: period-over-period average-order-value change. -/
def aov_change (orders prev_orders : List Order) : ℚ :=
  if 0 < average_order_value prev_orders then
    (average_order_value orders - average_order_value prev_orders)
      / average_order_value prev_orders
  else 0

/-- Line 110: the grouping key; a falsy (`None` or empty) `product_id`
falls back to a synthetic per-platform key. -/
def product_key (item : OrderItem) : String :=
  match item.product_id with
  | some s => if s = "" then "unknown_" ++ item.platform_product_id else s
  | none => "unknown_" ++ item.platform_product_id

/-- The per-product accumulator of the current period (name, summed
revenue, summed quantity). -/
structure ProductSales where
  name : String
  revenue : ℚ
  quantity : ℤ
deriving DecidableEq

/-- Lines 108-119: fold one line item into the current-period product
map; a fresh key starts at `{name, 0, 0}` and the item then adds
`price * quantity` revenue and its quantity. -/
def add_item (acc : List (String × ProductSales)) (item : OrderItem) :
    List (String × ProductSales) :=
  updOrInsert (product_key item)
    (fun p =>
      { p with
        revenue := p.revenue + item.price * item.quantity,
        quantity := p.quantity + item.quantity })
    (ProductSales.mk item.product_name 0 0) acc

/-- Lines 108-119: the current-period product map. -/
def product_sales (orders : List Order) : List (String × ProductSales) :=
  orders.foldl (fun acc o => o.order_items.foldl add_item acc) []

/-- The per-product accumulator of the previous period (no name kept). -/
structure PrevSales where
  revenue : ℚ
  quantity : ℤ
deriving DecidableEq

/-- Lines 134-143: fold one line item into the previous-period map. -/
def add_prev_item (acc : List (String × PrevSales)) (item : OrderItem) :
    List (String × PrevSales) :=
  updOrInsert (product_key item)
    (fun p =>
      { p with
        revenue := p.revenue + item.price * item.quantity,
        quantity := p.quantity + item.quantity })
    (PrevSales.mk 0 0) acc

/-- Lines 134-143: the previous-period product map. -/
def prev_product_sales (prev_orders : List Order) : List (String × PrevSales) :=
  prev_orders.foldl (fun acc o => o.order_items.foldl add_prev_item acc) []

/-- Line 122: the grouped product revenue total. -/
def total_product_revenue (orders : List Order) : ℚ :=
  ((product_sales orders).map (fun kv => kv.2.revenue)).sum

/-- Line 128: `scale_factor = total_sales / total_product_revenue`. -/
def scale_factor (orders : List Order) : ℚ :=
  total_sales orders / total_product_revenue orders

/-- Lines 124-131: if grouped product revenue exceeds order revenue by
more than 10%, and is positive, every product's revenue is multiplied by
the scale factor. -/
def rescaled_product_sales (orders : List Order) : List (String × ProductSales) :=
  if total_product_revenue orders > total_sales orders * (11 / 10) then
    if total_product_revenue orders > 0 then
      (product_sales orders).map
        (fun kv => (kv.1, { kv.2 with revenue := kv.2.revenue * scale_factor orders }))
    else product_sales orders
  else product_sales orders

/-- A product as reported: name, (rescaled) revenue, quantity and growth
rate. -/
structure ProductRec where
  name : String
  revenue : ℚ
  quantity : ℤ
  growth_rate : ℚ
deriving DecidableEq

/-- Lines 146-151: attach growth rates; a product with no positive
previous-period revenue gets rate `1` ("new"). -/
def products_with_growth (orders prev_orders : List Order) : List ProductRec :=
  (rescaled_product_sales orders).map (fun kv =>
    let prev_revenue :=
      match assocFind? kv.1 (prev_product_sales prev_orders) with
      | some p => p.revenue
      | none => 0
    { name := kv.2.name, revenue := kv.2.revenue, quantity := kv.2.quantity,
      growth_rate :=
        if 0 < prev_revenue then (kv.2.revenue - prev_revenue) / prev_revenue
        else 1 })

/-- Comparison for `sorted(..., key=revenue, reverse=True)`. -/
def by_revenue_desc (a b : ProductRec) : Bool := decide (b.revenue ≤ a.revenue)

/-- Comparison for `sorted(..., key=growth_rate, reverse=True)`. -/
def by_growth_desc (a b : ProductRec) : Bool := decide (b.growth_rate ≤ a.growth_rate)

/-- Comparison for `sorted(..., key=growth_rate)` ascending. -/
def by_growth_asc (a b : ProductRec) : Bool := decide (a.growth_rate ≤ b.growth_rate)

/-- Lines 154-158. -/
def sorted_by_revenue (orders prev_orders : List Order) : List ProductRec :=
  insSort by_revenue_desc (products_with_growth orders prev_orders)

/-- Lines 161-165. -/
def sorted_by_growth (orders prev_orders : List Order) : List ProductRec :=
  insSort by_growth_desc (products_with_growth orders prev_orders)

/-- Python's `l[-n:]` for a natural `n` (the whole list when `n = 0`,
since `-0 == 0`). -/
def pyTakeLast (n : ℕ) (l : List α) : List α :=
  if n = 0 then l else l.drop (l.length - n)

/-- Line 168: the top products by revenue. -/
def top_products (orders prev_orders : List Order) (top_products_limit : ℕ) :
    List ProductRec :=
  (sorted_by_revenue orders prev_orders).take top_products_limit

/-- Lines 171-176: the bottom products, worst performer first. -/
def bottom_products (orders prev_orders : List Order) (bottom_products_limit : ℕ) :
    List ProductRec :=
  if bottom_products_limit ≤ (sorted_by_revenue orders prev_orders).length then
    (pyTakeLast bottom_products_limit (sorted_by_revenue orders prev_orders)).reverse
  else
    (sorted_by_revenue orders prev_orders).reverse

/-- Line 179: growing products (positive growth rate), capped. -/
def growing_products (orders prev_orders : List Order) (top_products_limit : ℕ) :
    List ProductRec :=
  ((sorted_by_growth orders prev_orders).filter
    (fun p => decide (0 < p.growth_rate))).take top_products_limit

/-- Line 182: the declining candidates (negative growth rate). -/
def declining_candidates (orders prev_orders : List Order) : List ProductRec :=
  (sorted_by_growth orders prev_orders).filter (fun p => decide (p.growth_rate < 0))

/-- Lines 184-188: declining products, most negative first, capped. -/
def declining_products (orders prev_orders : List Order) (bottom_products_limit : ℕ) :
    List ProductRec :=
  if declining_candidates orders prev_orders ≠ [] then
    (insSort by_growth_asc (declining_candidates orders prev_orders)).take
      bottom_products_limit
  else []

/-- The pure value returned by `get_sales_data` (lines 254-282), without
the collaborator-filled `geo_data`/`conversion`/`anomalies` slots and the
formatted time strings. -/
structure SalesSummary where
  total_sales : ℚ
  total_orders : ℕ
  average_order_value : ℚ
  sales_change : ℚ
  orders_change : ℚ
  aov_change : ℚ
  previous_sales : ℚ
  previous_orders : ℕ
  previous_aov : ℚ
  top_products_count : ℕ
  bottom_products_count : ℕ
  top_products : List ProductRec
  bottom_products : List ProductRec
  growing_products : List ProductRec
  declining_products : List ProductRec
deriving DecidableEq

/-- The pure aggregation core of `get_sales_data` (lines 89-199 and
253-282): summary totals, comparison deltas and the ranked product
lists over the two already-fetched order sets.  It is a total function:
the source performs no input validation and raises on no input. -/
def get_sales_data (orders prev_orders : List Order)
    (top_products_limit bottom_products_limit : ℕ) : SalesSummary :=
  { total_sales := total_sales orders
    total_orders := orders.length
    average_order_value := average_order_value orders
    sales_change := sales_change orders prev_orders
    orders_change := orders_change orders prev_orders
    aov_change := aov_change orders prev_orders
    previous_sales := total_sales prev_orders
    previous_orders := prev_orders.length
    previous_aov := average_order_value prev_orders
    top_products_count := top_products_limit
    bottom_products_count := bottom_products_limit
    top_products := top_products orders prev_orders top_products_limit
    bottom_products := bottom_products orders prev_orders bottom_products_limit
    growing_products := growing_products orders prev_orders top_products_limit
    declining_products := declining_products orders prev_orders bottom_products_limit }

/-! ## String helpers shared by the geographic extractor and the time
range resolver.  Implemented over `String.data` character lists so that
concrete evaluations reduce. -/

/-- Python whitespace for `str.strip()`. -/
def isPySpace (c : Char) : Bool :=
  c = ' ' || c = '\t' || c = '\n' || c = '\r' || c = '\x0b' || c = '\x0c'

/-- Python `str.strip()`. -/
def pyStrip (s : String) : String :=
  String.mk (((s.data.dropWhile isPySpace).reverse.dropWhile isPySpace).reverse)

/-- Python `str.lower()` (ASCII). -/
def pyLower (s : String) : String :=
  String.mk (s.data.map Char.toLower)

/-- One step of Python `str.title()`: a letter is uppercased when the
previous character was not a letter, lowercased otherwise. -/
def pyTitleAux : Bool → List Char → List Char
  | _, [] => []
  | prevAlpha, c :: cs =>
      (if c.isAlpha then (if prevAlpha then c.toLower else c.toUpper) else c)
        :: pyTitleAux c.isAlpha cs

/-- Python `str.title()` (ASCII). -/
def pyTitle (s : String) : String :=
  String.mk (pyTitleAux false s.data)

/-- Whether `p` is an initial segment of `l`. -/
def startsWithL (p l : List Char) : Bool :=
  match p, l with
  | [], _ => true
  | _ :: _, [] => false
  | a :: as, b :: bs => a = b && startsWithL as bs

/-- Python `needle in hay` substring containment. -/
def hasSub (needle hay : List Char) : Bool :=
  match hay with
  | [] => startsWithL needle []
  | _ :: rest => startsWithL needle hay || hasSub needle rest

/-- Fuel-driven worker for `splitSub`. -/
def splitSubAux (sep : List Char) : ℕ → List Char → List Char → List (List Char)
  | 0, l, acc => [(acc.reverse ++ l)]
  | _ + 1, [], acc => [acc.reverse]
  | fuel + 1, c :: rest, acc =>
      if startsWithL sep (c :: rest) then
        acc.reverse :: splitSubAux sep fuel ((c :: rest).drop sep.length) []
      else
        splitSubAux sep fuel rest (c :: acc)

/-- Python `s.split(sep)` for a non-empty separator: non-overlapping,
left to right. -/
def splitSub (sep : String) (s : String) : List String :=
  (splitSubAux sep.data s.data.length s.data []).map String.mk

/-! ## Geographic hierarchy extractor

`app/services/analytics.py`, `extract_geo_data_from_orders`
(lines 283-577). -/

/-- Lines 361-388: the address resolution chain.  Each branch of the
`elif` chain is selected by key *presence* (for `shipping`/`customer`,
additionally by being a dict); once a branch is selected its value is
final, so a selected branch holding no usable address yields `none`
even when a later candidate exists. -/
def resolve_shipping_address (od : OrderData) : Option Address :=
  match od.shipping_address with
  | .val a => some a
  | .null => none
  | .absent =>
      match od.shipping with
      | some sh => sh.address
      | none =>
          match od.customer with
          | some cu =>
              (match cu.default_address with
               | .val a => some a
               | .null => none
               | .absent =>
                   match cu.addresses with
                   | some (a :: _) => some a
                   | _ => none)
          | none =>
              match od.billing_address with
              | .val a => some a
              | _ => none

/-- A normalized four-level location label. -/
structure Loc where
  country : String
  province : String
  city : String
  district : String
deriving DecidableEq

/-- Lines 406-437, inner keyword loop: the first keyword contained in
the lowercased address part that splits it into at least two pieces
with a non-blank selected piece wins; the selected piece is the text
before the first keyword (`parts[0]`) and after it (`parts[1]`)
otherwise, stripped and title-cased. -/
def kwFind (kws : List String) (first : String) (part : String) : Option String :=
  match kws with
  | [] => none
  | kw :: rest =>
      if hasSub kw.data (pyLower part).data then
        let parts := splitSub kw (pyLower part)
        if 1 < parts.length then
          let possible :=
            if kw = first then pyStrip (parts.headD "")
            else pyStrip ((parts.get? 1).getD "")
          if possible ≠ "" then some (pyTitle possible) else kwFind rest first part
        else kwFind rest first part
      else kwFind rest first part

/-- Lines 406-437, outer loop over `[address1, address2]`: empty parts
are skipped and a hit in the second part overwrites one in the first. -/
def kwExtract (kws : List String) (first : String)
    (address1 address2 cur : String) : String :=
  let cur1 :=
    match (if address1 ≠ "" then kwFind kws first address1 else none) with
    | some p => p
    | none => cur
  match (if address2 ≠ "" then kwFind kws first address2 else none) with
  | some p => p
  | none => cur1

/-- Lines 392-451: extract and normalize the location of a resolved
address: Philippines-specific keyword extraction, sentinel labels for
blank fields, and the city-equals-region dedup.  A present-but-null
probed field behaves like an absent one (both are falsy and normalize
to the same sentinel), so both are `none` here; `suburb` is read by the
source but never used. -/
def extract_location (sa : Address) : Loc :=
  let country := sa.country.getD "Unknown"
  let province0 := sa.province.getD ""
  let city0 := sa.city.getD ""
  let district0 := sa.district.getD ""
  let barangay := sa.barangay.getD ""
  let address1 := sa.address1.getD ""
  let address2 := sa.address2.getD ""
  let province1 :=
    if country = "Philippines" ∧ province0 = "" then
      kwExtract ["province", "provinces"] "province" address1 address2 province0
    else province0
  let city1 :=
    if country = "Philippines" ∧ city0 = "" ∧ (address1 ≠ "" ∨ address2 ≠ "") then
      kwExtract ["city", "municipality", "town"] "city" address1 address2 city0
    else city0
  let district1 :=
    if country = "Philippines" ∧ barangay ≠ "" ∧ district0 = "" then barangay
    else district0
  let country2 := if country = "" ∨ pyStrip country = "" then "Unknown" else country
  let province2 :=
    if province1 = "" ∨ pyStrip province1 = "" then "Unknown Region" else province1
  let city2 := if city1 = "" ∨ pyStrip city1 = "" then "Unknown City" else city1
  let district2 :=
    if district1 = "" ∨ pyStrip district1 = "" then "Unknown District" else district1
  let city3 := if pyLower city2 = pyLower province2 then "Unknown City" else city2
  ⟨country2, province2, city3, district2⟩

/-- District accumulator. -/
structure DistrictAcc where
  total_orders : ℕ
  total_sales : ℚ
deriving DecidableEq

/-- City accumulator with optional district children (the `districts`
dict, populated only for explicitly present districts). -/
structure CityAcc where
  total_orders : ℕ
  total_sales : ℚ
  districts : List (String × DistrictAcc)
deriving DecidableEq

/-- Region accumulator. -/
structure RegionAcc where
  total_orders : ℕ
  total_sales : ℚ
  cities : List (String × CityAcc)
deriving DecidableEq

/-- Country accumulator. -/
structure CountryAcc where
  total_orders : ℕ
  total_sales : ℚ
  regions : List (String × RegionAcc)
deriving DecidableEq

/-- Lines 495-502: bump one district accumulator. -/
def bump_district (price : ℚ) (d : DistrictAcc) : DistrictAcc :=
  { total_orders := d.total_orders + 1, total_sales := d.total_sales + price }

/-- Lines 477-502: bump one city accumulator; the district sub-map is
touched only when a district is explicitly present (no placeholder
`Unknown District` nodes). -/
def bump_city (loc : Loc) (price : ℚ) (ci : CityAcc) : CityAcc :=
  { total_orders := ci.total_orders + 1
    total_sales := ci.total_sales + price
    districts :=
      if loc.district ≠ "Unknown District" then
        updOrInsert loc.district (bump_district price) (DistrictAcc.mk 0 0)
          ci.districts
      else ci.districts }

/-- Lines 465-502: bump one region accumulator. -/
def bump_region (loc : Loc) (price : ℚ) (r : RegionAcc) : RegionAcc :=
  { total_orders := r.total_orders + 1
    total_sales := r.total_sales + price
    cities := updOrInsert loc.city (bump_city loc price) (CityAcc.mk 0 0 [])
      r.cities }

/-- Lines 453-502: bump one country accumulator. -/
def bump_country (loc : Loc) (price : ℚ) (c : CountryAcc) : CountryAcc :=
  { total_orders := c.total_orders + 1
    total_sales := c.total_sales + price
    regions := updOrInsert loc.province (bump_region loc price)
      (RegionAcc.mk 0 0 []) c.regions }

/-- Lines 453-502: fold one located order into the nested accumulation
maps, bumping order count and sales at country, region and city level,
and at district level only when a district is explicitly present. -/
def add_order_geo (geo : List (String × CountryAcc)) (loc : Loc) (price : ℚ) :
    List (String × CountryAcc) :=
  updOrInsert loc.country (bump_country loc price) (CountryAcc.mk 0 0 []) geo

/-- Lines 336-505: one loop iteration; orders with no raw payload or no
resolvable address are skipped. -/
def process_order_geo (geo : List (String × CountryAcc)) (o : Order) :
    List (String × CountryAcc) :=
  match o.order_data with
  | none => geo
  | some od =>
      match resolve_shipping_address od with
      | none => geo
      | some sa => add_order_geo geo (extract_location sa) o.total_price

/-- The accumulation maps over a whole order list. -/
def geo_acc (orders : List Order) : List (String × CountryAcc) :=
  orders.foldl process_order_geo []

/-- Output district node. -/
structure DistrictNode where
  name : String
  total_orders : ℕ
  total_sales : ℚ
deriving DecidableEq

/-- Output city node; an empty `districts` list models the absent
`districts` key of the source output. -/
structure CityNode where
  name : String
  total_orders : ℕ
  total_sales : ℚ
  districts : List DistrictNode
deriving DecidableEq

/-- Output region node. -/
structure RegionNode where
  name : String
  total_orders : ℕ
  total_sales : ℚ
  cities : List CityNode
deriving DecidableEq

/-- Output country node. -/
structure CountryNode where
  country : String
  total_orders : ℕ
  total_sales : ℚ
  regions : List RegionNode
deriving DecidableEq

/-- Sort key: total sales descending (lines 529, 544, 554, 565). -/
def district_by_sales_desc (a b : DistrictNode) : Bool := decide (b.total_sales ≤ a.total_sales)

/-- Sort key for cities. -/
def city_by_sales_desc (a b : CityNode) : Bool := decide (b.total_sales ≤ a.total_sales)

/-- Sort key for regions. -/
def region_by_sales_desc (a b : RegionNode) : Bool := decide (b.total_sales ≤ a.total_sales)

/-- Sort key for countries. -/
def country_by_sales_desc (a b : CountryNode) : Bool := decide (b.total_sales ≤ a.total_sales)

/-- Lines 517-541: convert one city accumulator. -/
def to_city_node (kv : String × CityAcc) : CityNode :=
  { name := kv.1
    total_orders := kv.2.total_orders
    total_sales := kv.2.total_sales
    districts :=
      insSort district_by_sales_desc
        (kv.2.districts.map (fun d => DistrictNode.mk d.1 d.2.total_orders d.2.total_sales)) }

/-- Lines 513-551: convert one region accumulator. -/
def to_region_node (kv : String × RegionAcc) : RegionNode :=
  { name := kv.1
    total_orders := kv.2.total_orders
    total_sales := kv.2.total_sales
    cities := insSort city_by_sales_desc (kv.2.cities.map to_city_node) }

/-- Lines 511-562: convert one country accumulator. -/
def to_country_node (kv : String × CountryAcc) : CountryNode :=
  { country := kv.1
    total_orders := kv.2.total_orders
    total_sales := kv.2.total_sales
    regions := insSort region_by_sales_desc (kv.2.regions.map to_region_node) }

/-- Lines 283-577: `extract_geo_data_from_orders`, the full extractor:
accumulate, convert and sort by total sales descending at every level. -/
def extract_geo_data_from_orders (orders : List Order) : List CountryNode :=
  insSort country_by_sales_desc ((geo_acc orders).map to_country_node)

/-- The district children of a city accumulator sum to at most the
city's own totals (districts are attached only when explicitly
present). -/
def cityAccOk (ci : CityAcc) : Prop :=
  (ci.districts.map (fun kv => kv.2.total_orders)).sum ≤ ci.total_orders
    ∧ (ci.districts.map (fun kv => kv.2.total_sales)).sum ≤ ci.total_sales

/-- A region accumulator's totals equal the sums of its cities', and
every city is internally consistent. -/
def regionAccOk (r : RegionAcc) : Prop :=
  r.total_orders = (r.cities.map (fun kv => kv.2.total_orders)).sum
    ∧ r.total_sales = (r.cities.map (fun kv => kv.2.total_sales)).sum
    ∧ ∀ kv ∈ r.cities, cityAccOk kv.2

/-- A country accumulator's totals equal the sums of its regions', and
every region is internally consistent. -/
def countryAccOk (c : CountryAcc) : Prop :=
  c.total_orders = (c.regions.map (fun kv => kv.2.total_orders)).sum
    ∧ c.total_sales = (c.regions.map (fun kv => kv.2.total_sales)).sum
    ∧ ∀ kv ∈ c.regions, regionAccOk kv.2

/-- Output-tree form of the city consistency: district children sum to
at most the city totals. -/
def city_node_ok (ci : CityNode) : Prop :=
  (ci.districts.map (fun d => d.total_orders)).sum ≤ ci.total_orders
    ∧ (ci.districts.map (fun d => d.total_sales)).sum ≤ ci.total_sales

/-- Output-tree form of the region consistency: totals equal the sums
over the city children. -/
def region_node_ok (r : RegionNode) : Prop :=
  r.total_orders = (r.cities.map (fun c => c.total_orders)).sum
    ∧ r.total_sales = (r.cities.map (fun c => c.total_sales)).sum

/-- Output-tree form of the country consistency: totals equal the sums
over the region children. -/
def country_node_ok (c : CountryNode) : Prop :=
  c.total_orders = (c.regions.map (fun r => r.total_orders)).sum
    ∧ c.total_sales = (c.regions.map (fun r => r.total_sales)).sum

/-! ## Anomaly detection engine

`app/services/anomaly_detection.py`.  The engine works on the flat
`(order_date, total_price)` projection of the fetched orders.  Values
derived through square roots (z-scores) and the Poisson tail live in
`ℝ`; the float `NaN`s that pandas produces for rows whose shifted
rolling window has fewer than five prior observations never flag (any
comparison with `NaN` is false), which is modelled by skipping those
rows.  The human-readable `description` strings and the `metrics`
sub-dict (which only repeat the top-level numbers through float
formatting) are not modelled. -/

/-- Sample mean of a list of rationals. -/
def qmean (l : List ℚ) : ℚ := l.sum / (l.length : ℚ)

/-- Sample variance with one delta degree of freedom (the default of
pandas `std`); its square root is the pandas standard deviation. -/
def svar (l : List ℚ) : ℚ :=
  (l.map (fun x => (x - qmean l) ^ 2)).sum / ((l.length : ℚ) - 1)

/-- The distinct values of a list, ascending (pandas `groupby` sorts its
keys). -/
def distinct_sorted (l : List ℤ) : List ℤ :=
  insSort (fun a b => decide (a ≤ b)) l.dedup

/-- Lines 53 and 104: daily sales totals, grouped by calendar day. -/
def daily_sales_groups (orders : List Order) : List (ℤ × ℚ) :=
  (distinct_sorted (orders.map (fun o => dayOf o.order_date))).map (fun d =>
    (d, ((orders.filter (fun o => decide (dayOf o.order_date = d))).map
          (fun o => o.total_price)).sum))

/-- Lines 286-291: daily average order value, grouped by calendar day
(each group is non-empty by construction, so the count is positive). -/
def daily_aov_groups (orders : List Order) : List (ℤ × ℚ) :=
  (distinct_sorted (orders.map (fun o => dayOf o.order_date))).map (fun d =>
    let day_orders := orders.filter (fun o => decide (dayOf o.order_date = d))
    (d, ((day_orders.map (fun o => o.total_price)).sum) / (day_orders.length : ℚ)))

/-- Lines 112-116: the 7-wide rolling window ending at row `i - 1`
(`rolling(window=7, min_periods=5)` followed by `shift(1)`). -/
def roll_window (xs : List ℚ) (i : ℕ) : List ℚ := (xs.take i).drop (i - 7)

/-- The shifted rolling mean at row `i`. -/
def roll_mean (xs : List ℚ) (i : ℕ) : ℚ := qmean (roll_window xs i)

/-- The shifted rolling sample variance at row `i`. -/
def roll_var (xs : List ℚ) (i : ℕ) : ℚ := svar (roll_window xs i)

/-- Lines 119-120: the adjusted standard deviation: a zero rolling
standard deviation (zero variance) is replaced by 10% of the rolling
mean.  A zero adjusted value makes the float z-score non-finite in the
source; such rows are treated as non-anomalous here (see module note). -/
noncomputable def roll_std_adj (xs : List ℚ) (i : ℕ) : ℝ :=
  if roll_var xs i = 0 then ((roll_mean xs i : ℝ) * (1 / 10))
  else Real.sqrt (roll_var xs i)

/-- Line 123: the z-score of row `i` against the shifted rolling
baseline. -/
noncomputable def roll_z (xs : List ℚ) (i : ℕ) (x : ℚ) : ℝ :=
  ((x : ℝ) - (roll_mean xs i : ℝ)) / roll_std_adj xs i

/-- One daily-metric anomaly record (shared by the daily-sales and the
average-order-value sub-detectors, whose payloads coincide on the
modelled fields). -/
structure DailyAnomaly where
  anomaly_type : String
  date : ℤ
  value : ℚ
  expected_value : ℚ
  z_score : ℝ
  percentage_change : ℚ
  severity : ℕ
  title : String

open Classical in
/-- Lines 87-162: `_detect_daily_sales_anomalies`: needs five distinct
days, flags `|z| > 2` against the shifted 7-day rolling baseline, keeps
only the trailing 7 days (against the local calendar day of `now`), and
grades severity as `min(5, max(1, int(|z|)))`. -/
noncomputable def detect_daily_sales_anomalies (now_local_day : ℤ)
    (orders : List Order) : List DailyAnomaly :=
  let groups := daily_sales_groups orders
  if groups.length < 5 then [] else
  let xs := groups.map (fun g => g.2)
  groups.enum.filterMap (fun p =>
    if p.1 < 5 then none else
    let m := roll_mean xs p.1
    let z := roll_z xs p.1 p.2.2
    if 2 < |z| then
      if 7 < now_local_day - p.2.1 then none
      else
        some { anomaly_type :=
                 if 0 < z then "unusually_high_sales" else "unusually_low_sales"
               date := p.2.1
               value := p.2.2
               expected_value := m
               z_score := z
               percentage_change := if 0 < m then (p.2.2 - m) / m else 0
               severity := min 5 (max 1 (Int.floor |z|).toNat)
               title :=
                 if 0 < z then "High Sales Anomaly Detected"
                 else "Low Sales Anomaly Detected" }
    else none)

open Classical in
/-- Lines 269-349: `_detect_aov_anomalies`: the same rolling z-score
technique over daily average order value with the stricter `|z| > 2.5`
threshold. -/
noncomputable def detect_aov_anomalies (now_local_day : ℤ)
    (orders : List Order) : List DailyAnomaly :=
  let groups := daily_aov_groups orders
  if groups.length < 5 then [] else
  let xs := groups.map (fun g => g.2)
  groups.enum.filterMap (fun p =>
    if p.1 < 5 then none else
    let m := roll_mean xs p.1
    let z := roll_z xs p.1 p.2.2
    if 5 / 2 < |z| then
      if 7 < now_local_day - p.2.1 then none
      else
        some { anomaly_type :=
                 if 0 < z then "unusually_high_aov" else "unusually_low_aov"
               date := p.2.1
               value := p.2.2
               expected_value := m
               z_score := z
               percentage_change := if 0 < m then (p.2.2 - m) / m else 0
               severity := min 5 (max 1 (Int.floor |z|).toNat)
               title :=
                 if 0 < z then "High Average Order Value Anomaly"
                 else "Low Average Order Value Anomaly" }
    else none)

/-- Line 182-183: the orders of the trailing 48 hours. -/
def recent_orders_of (now : ℤ) (orders : List Order) : List Order :=
  orders.filter (fun o => decide (now - 48 * usPerHour ≤ o.order_date))

/-- Lines 189-190: the distinct hour bins of the recent orders,
ascending. -/
def hour_bins (recent : List Order) : List ℤ :=
  distinct_sorted (recent.map (fun o => hourFloor o.order_date))

/-- The number of recent orders falling in one hour bin. -/
def bin_count (recent : List Order) (b : ℤ) : ℕ :=
  (recent.filter (fun o => decide (hourFloor o.order_date = b))).length

/-- The number of distinct calendar days in the full order set
(`len(all_orders["date"].unique())`). -/
def distinct_days_count (orders : List Order) : ℕ :=
  ((orders.map (fun o => dayOf o.order_date)).dedup).length

/-- One joined row of the hourly pipeline. -/
structure HourlyRow where
  hour_bin : ℤ
  count : ℕ
  historical_count : ℕ
  expected : ℚ
deriving DecidableEq

/-- Lines 189-208: recent hour bins joined with the historical
`(hour, day-of-week)` bucket counts; the expected count divides the
bucket count by the number of observed weeks
(`distinct days / 7`).  The `fillna` branch (a merge miss, modelled as a
zero bucket count) substitutes the mean of the recent bin counts; it is
unreachable because every recent bin's own orders sit in its bucket. -/
def hourly_rows (now : ℤ) (orders : List Order) : List HourlyRow :=
  let recent := recent_orders_of now orders
  (hour_bins recent).map (fun b =>
    let hist := (orders.filter (fun o =>
      decide (hourOf o.order_date = hourOf b ∧ dowOf o.order_date = dowOf b))).length
    { hour_bin := b
      count := bin_count recent b
      historical_count := hist
      expected :=
        if hist = 0 then qmean ((hour_bins recent).map (fun b2 => (bin_count recent b2 : ℚ)))
        else (hist : ℚ) / ((distinct_days_count orders : ℚ) / 7) })

/-- The cumulative distribution function of a Poisson distribution with
rate `mu` at an integer count `k` (`scipy.stats.poisson.cdf`). -/
noncomputable def poisson_cdf (mu : ℚ) (k : ℕ) : ℝ :=
  Real.exp (-(mu : ℝ)) *
    ((List.range (k + 1)).map (fun i => (mu : ℝ) ^ i / (Nat.factorial i : ℝ))).sum

/-- Lines 211-216: the one-sided Poisson tail probability of a row. -/
noncomputable def row_p_value (r : HourlyRow) : ℝ :=
  if (r.count : ℚ) > r.expected then 1 - poisson_cdf r.expected r.count
  else poisson_cdf r.expected r.count

open Classical in
/-- Lines 234-241: severity from the p-value. -/
noncomputable def row_severity (r : HourlyRow) : ℕ :=
  if row_p_value r < 1 / 1000 then 5
  else if row_p_value r < 1 / 100 then 4
  else if row_p_value r < 1 / 20 then 3
  else 2

/-- Line 231: percentage deviation of a row from its expected count. -/
def row_pct (r : HourlyRow) : ℚ :=
  if 0 < r.expected then ((r.count : ℚ) - r.expected) / r.expected else 0

/-- One hourly order-rate anomaly record. -/
structure HourlyAnomaly where
  anomaly_type : String
  hour_bin : ℤ
  value : ℕ
  expected_value : ℚ
  p_value : ℝ
  percentage_change : ℚ
  severity : ℕ
  title : String

open Classical in
/-- Lines 165-266: `_detect_hourly_order_anomalies`: needs five orders
in the trailing 48 hours, flags rows with `p < 0.05`, keeps only bins in
the trailing 12 hours, and drops rows that have both severity below 3
and an absolute deviation below 50%. -/
noncomputable def detect_hourly_order_anomalies (now : ℤ)
    (orders : List Order) : List HourlyAnomaly :=
  if (recent_orders_of now orders).length < 5 then [] else
  (((hourly_rows now orders).filter
      (fun r => decide (row_p_value r < 1 / 20))).filter
      (fun r => decide (now - 12 * usPerHour ≤ r.hour_bin))).filterMap (fun r =>
    if row_severity r < 3 ∧ |row_pct r| < 1 / 2 then none
    else
      some { anomaly_type :=
               if (r.count : ℚ) > r.expected then "unusually_high_orders"
               else "unusually_low_orders"
             hour_bin := r.hour_bin
             value := r.count
             expected_value := r.expected
             p_value := row_p_value r
             percentage_change := row_pct r
             severity := row_severity r
             title :=
               if (r.count : ℚ) > r.expected then "High Order Rate Anomaly"
               else "Low Order Rate Anomaly" })

/-- One combined anomaly record, as collected in `all_anomalies`
(line 67). -/
inductive AnomalyRecord where
  | daily : DailyAnomaly → AnomalyRecord
  | hourly : HourlyAnomaly → AnomalyRecord
  | aov : DailyAnomaly → AnomalyRecord

/-- The title of a combined record. -/
def AnomalyRecord.title : AnomalyRecord → String
  | .daily a => a.title
  | .hourly a => a.title
  | .aov a => a.title

/-- The severity of a combined record. -/
def AnomalyRecord.severity : AnomalyRecord → ℕ
  | .daily a => a.severity
  | .hourly a => a.severity
  | .aov a => a.severity

/-- Lines 14-84: `detect_anomalies` over the already-fetched lookback
orders: below ten orders the run returns an empty list; otherwise the
three sub-detectors run and their records are concatenated.  `now` is
the UTC instant (`datetime.utcnow()`); the daily-metric recency skips
compare against the local calendar day (`datetime.now().date()`),
reconstructed from the host timezone offset `local_offset`. -/
noncomputable def detect_anomalies (now local_offset : ℤ)
    (orders : List Order) : List AnomalyRecord :=
  if orders.length < 10 then [] else
  (detect_daily_sales_anomalies (dayOf (now + local_offset)) orders).map .daily
    ++ (detect_hourly_order_anomalies now orders).map .hourly
    ++ (detect_aov_anomalies (dayOf (now + local_offset)) orders).map .aov

/-- One persisted insight row, as built on lines 70-82 (the payload
fields that `create_insight` stores for an anomaly). -/
structure Insight where
  insight_type : String
  title : String
  severity : ℕ
  is_anomaly : Bool
  is_sent : Bool

/-- Lines 71-82: the insight row written for one detected anomaly. -/
noncomputable def create_insight_record (a : AnomalyRecord) : Insight :=
  { insight_type := "anomaly"
    title := a.title
    severity := a.severity
    is_anomaly := true
    is_sent := false }

/-- Lines 14-84 with the persistence effect made explicit: the run
returns the detected anomalies and the store of insight rows after the
engine's own `create_insight` calls (one per anomaly, lines 70-82). -/
noncomputable def detect_anomalies_run (insights : List Insight)
    (now local_offset : ℤ) (orders : List Order) :
    List AnomalyRecord × List Insight :=
  let anoms := detect_anomalies now local_offset orders
  (anoms, insights ++ anoms.map create_insight_record)

/-! ## Time range resolver

`app/utils/helpers.py`, `get_date_range` (lines 105-269).  Instants are
local wall-clock microsecond counts since the epoch of the caller's
(fixed-offset) timezone; the final step converts to UTC by subtracting
the offset.  Python's `datetime` year range [1, 9999] is modelled where
constructions happen inside the function's `try` blocks (a `ValueError`
there is caught and triggers the branch's documented fallback).
Arithmetic is otherwise unbounded: the `OverflowError` that a huge
`timedelta` would raise (and that no `except` clause catches) is not
modelled. -/

/-- Gregorian leap year. -/
def isLeapYear (y : ℤ) : Bool := (y % 4 = 0 && y % 100 ≠ 0) || y % 400 = 0

/-- Days in a month of the proleptic Gregorian calendar. -/
def daysInMonth (y m : ℤ) : ℤ :=
  if m = 2 then (if isLeapYear y then 29 else 28)
  else if m = 4 ∨ m = 6 ∨ m = 9 ∨ m = 11 then 30
  else 31

/-- Day count since 1970-01-01 of a civil date (standard civil-calendar
conversion). -/
def daysFromCivil (y m d : ℤ) : ℤ :=
  let y2 := if m ≤ 2 then y - 1 else y
  let era := y2.fdiv 400
  let yoe := y2 - era * 400
  let mp := (m + 9) % 12
  let doy := (153 * mp + 2).fdiv 5 + d - 1
  let doe := yoe * 365 + yoe.fdiv 4 - yoe.fdiv 100 + doy
  era * 146097 + doe - 719468

/-- Civil date (year, month, day) of a day count since 1970-01-01. -/
def civilFromDays (z : ℤ) : ℤ × ℤ × ℤ :=
  let z2 := z + 719468
  let era := z2.fdiv 146097
  let doe := z2 - era * 146097
  let yoe := (doe - doe.fdiv 1460 + doe.fdiv 36524 - doe.fdiv 146096).fdiv 365
  let y := yoe + era * 400
  let doy := doe - (365 * yoe + yoe.fdiv 4 - yoe.fdiv 100)
  let mp := (5 * doy + 2).fdiv 153
  let d := doy - (153 * mp + 2).fdiv 5 + 1
  let m := mp + (if mp < 10 then 3 else -9)
  (if m ≤ 2 then y + 1 else y, m, d)

/-- Local midnight of the instant's day
(`replace(hour=0, minute=0, second=0, microsecond=0)`). -/
def midnight (t : ℤ) : ℤ := dayOf t * usPerDay

/-- Last microsecond of the instant's day
(`replace(hour=23, minute=59, second=59, microsecond=999999)`). -/
def endOfDay (t : ℤ) : ℤ := midnight t + (usPerDay - 1)

/-- Local midnight of the first day of the instant's month
(`replace(day=1, hour=0, minute=0, second=0, microsecond=0)`). -/
def firstOfMonthMidnight (t : ℤ) : ℤ :=
  let c := civilFromDays (dayOf t)
  daysFromCivil c.1 c.2.1 1 * usPerDay

/-- The instant moved to day 1 of its month, keeping the time of day
(`replace(day=1)`). -/
def replaceDay1 (t : ℤ) : ℤ :=
  let c := civilFromDays (dayOf t)
  daysFromCivil c.1 c.2.1 1 * usPerDay + t.emod usPerDay

/-- Non-empty all-digit character run. -/
def pyAllDigits (l : List Char) : Bool := !l.isEmpty && l.all Char.isDigit

/-- Numeric value of a digit run. -/
def digitsToNat (l : List Char) : ℕ :=
  l.foldl (fun a c => a * 10 + (c.toNat - 48)) 0

/-- Python `int(s)` for the shapes that reach it here: optional sign and
digits after stripping whitespace (`none` models the `ValueError`). -/
def pyInt? (s : String) : Option ℤ :=
  match (pyStrip s).data with
  | '-' :: ds => if pyAllDigits ds then some (-(digitsToNat ds : ℤ)) else none
  | '+' :: ds => if pyAllDigits ds then some ((digitsToNat ds : ℤ)) else none
  | ds => if pyAllDigits ds then some ((digitsToNat ds : ℤ)) else none

/-- Python `int` of each piece, all succeeding (`map(int, ...)`). -/
def parseInts (l : List String) : Option (List ℤ) := l.mapM pyInt?

/-- Line 143: the anchored pattern
`^last_\d+_(days|weeks|months|years)$`. -/
def matchDynamicRange (s : String) : Option (ℕ × String) :=
  match splitSub "_" s with
  | [w, digits, unit] =>
      if w = "last" ∧ pyAllDigits digits.data ∧
          (unit = "days" ∨ unit = "weeks" ∨ unit = "months" ∨ unit = "years") then
        some (digitsToNat digits.data, unit)
      else none
  | _ => none

/-- A word character of the regex class `\w` (ASCII). -/
def isWordChar (c : Char) : Bool := c.isAlphanum || c = '_'

/-- An occurrence of `last_(\d+)_(\w+)` starting at the head of the
character list: the digit run is maximal (backtracking cannot help,
since the character after a shorter run would be a digit, not `_`), and
the captured unit is the maximal word-character run. -/
def matchSearchAt (l : List Char) : Option (ℕ × String) :=
  if startsWithL ("last_".data) l then
    let rest := l.drop 5
    let ds := rest.takeWhile Char.isDigit
    if ds.isEmpty then none
    else
      match rest.drop ds.length with
      | '_' :: r3 =>
          let ws := r3.takeWhile isWordChar
          if ws.isEmpty then none else some (digitsToNat ds, String.mk ws)
      | _ => none
  else none

/-- Leftmost occurrence, as `re.search` finds it. -/
def searchLastNumUnitAux : List Char → Option (ℕ × String)
  | [] => none
  | c :: rest =>
      match matchSearchAt (c :: rest) with
      | some r => some r
      | none => searchLastNumUnitAux rest

/-- Line 223: `re.search(r'last_(\d+)_(\w+)', range_type)`. -/
def searchLastNumUnit (s : String) : Option (ℕ × String) :=
  searchLastNumUnitAux s.data

/-- Lines 153-160 and 236-243: the `last_N_months` start: subtract
`N % 12` months and `N // 12` years, roll under January, then take day 1
at midnight; `none` models the `ValueError` of an out-of-range year. -/
def monthStart (now : ℤ) (num : ℕ) : Option ℤ :=
  let c := civilFromDays (dayOf now)
  let m1 := c.2.1 - ((num : ℤ) % 12)
  let y1 := c.1 - ((num : ℤ) / 12)
  let m2 := if m1 ≤ 0 then m1 + 12 else m1
  let y2 := if m1 ≤ 0 then y1 - 1 else y1
  if 1 ≤ y2 ∧ y2 ≤ 9999 then some (daysFromCivil y2 m2 1 * usPerDay) else none

/-- Line 162: the `last_N_years` start of the anchored grammar: January
1 at midnight of the shifted year. -/
def yearJan1Start (now : ℤ) (num : ℕ) : Option ℤ :=
  let y := (civilFromDays (dayOf now)).1
  if 1 ≤ y - (num : ℤ) ∧ y - (num : ℤ) ≤ 9999 then
    some (daysFromCivil (y - (num : ℤ)) 1 1 * usPerDay)
  else none

/-- Line 245: the `last_N_year(s)` start of the fallback search, which
keeps month and day (`now.replace(year=now.year - num, ...)`); invalid
results (year out of range, or February 29 of a non-leap target year)
model the `ValueError`. -/
def yearSameDayStart (now : ℤ) (num : ℕ) : Option ℤ :=
  let c := civilFromDays (dayOf now)
  if 1 ≤ c.1 - (num : ℤ) ∧ c.1 - (num : ℤ) ≤ 9999 ∧
      c.2.2 ≤ daysInMonth (c.1 - (num : ℤ)) c.2.1 then
    some (daysFromCivil (c.1 - (num : ℤ)) c.2.1 c.2.2 * usPerDay)
  else none

/-- Lines 143-171: the anchored dynamic branch; a `ValueError` inside
falls back to the last 7 days (lines 167-171). -/
def dynamicBranch (now : ℤ) (num : ℕ) (unit : String) : ℤ × ℤ :=
  let r : Option ℤ :=
    if unit = "days" then some (midnight (now - (num : ℤ) * usPerDay))
    else if unit = "weeks" then some (midnight (now - (7 * num : ℕ) * usPerDay))
    else if unit = "months" then monthStart now num
    else yearJan1Start now num
  match r with
  | some s => (s, now)
  | none => (midnight (now - 7 * usPerDay), now)

/-- Lines 174-191: the `specific_month_YYYY_MM` branch; any parse or
`datetime` failure falls back to the last 30 days (lines 187-191). -/
def specificMonthBranch (range_type : String) (now : ℤ) : ℤ × ℤ :=
  let fb : ℤ × ℤ := (midnight (now - 30 * usPerDay), now)
  match parseInts ((splitSub "_" range_type).drop 2) with
  | some [y, m] =>
      if 1 ≤ y ∧ y ≤ 9999 ∧ 1 ≤ m ∧ m ≤ 12 then
        if m = 12 then
          if y + 1 ≤ 9999 then
            (daysFromCivil y m 1 * usPerDay, daysFromCivil (y + 1) 1 1 * usPerDay - 1)
          else fb
        else
          (daysFromCivil y m 1 * usPerDay, daysFromCivil y (m + 1) 1 * usPerDay - 1)
      else fb
  | _ => fb

/-- Lines 194-210: the `specific_date_YYYY_MM_DD` branch; any parse or
`datetime` failure falls back to today (lines 206-210). -/
def specificDateBranch (range_type : String) (now : ℤ) : ℤ × ℤ :=
  let fb : ℤ × ℤ := (midnight now, now)
  match parseInts ((splitSub "_" range_type).drop 2) with
  | some [y, m, d] =>
      if 1 ≤ y ∧ y ≤ 9999 ∧ 1 ≤ m ∧ m ≤ 12 ∧ 1 ≤ d ∧ d ≤ daysInMonth y m then
        (daysFromCivil y m d * usPerDay, daysFromCivil y m d * usPerDay + (usPerDay - 1))
      else fb
  | _ => fb

/-- Lines 222-256: the unanchored fallback search branch; a
`ValueError` inside falls back to the last 7 days. -/
def fallbackSearchBranch (now : ℤ) (num : ℕ) (unitRaw : String) : ℤ × ℤ :=
  let unit :=
    if unitRaw.data.getLast? = some 's' then String.mk unitRaw.data.dropLast
    else unitRaw
  let r : Option ℤ :=
    if unit = "day" then some (midnight (now - (num : ℤ) * usPerDay))
    else if unit = "week" then some (midnight (now - (7 * num : ℕ) * usPerDay))
    else if unit = "month" then monthStart now num
    else if unit = "year" then yearSameDayStart now num
    else some (midnight (now - (num : ℤ) * usPerDay))
  match r with
  | some s => (s, now)
  | none => (midnight (now - 7 * usPerDay), now)

/-- Lines 119-261: the branch dispatch of `get_date_range`, in local
wall-clock time, before the final end-of-day adjustment and the UTC
conversion. -/
def get_date_range_local (range_type : String) (now : ℤ) : ℤ × ℤ :=
  if range_type = "today" then (midnight now, now)
  else if range_type = "yesterday" then
    (midnight (now - usPerDay), endOfDay (now - usPerDay))
  else if range_type = "this_month" then (firstOfMonthMidnight now, now)
  else if range_type = "last_month" then
    (firstOfMonthMidnight (replaceDay1 now - usPerDay), firstOfMonthMidnight now - 1)
  else
    match matchDynamicRange range_type with
    | some nu => dynamicBranch now nu.1 nu.2
    | none =>
        if startsWithL ("specific_month_".data) range_type.data then
          specificMonthBranch range_type now
        else if startsWithL ("specific_date_".data) range_type.data then
          specificDateBranch range_type now
        else if range_type = "last_7_days" then
          (midnight (now - 7 * usPerDay), now)
        else if range_type = "last_30_days" then
          (midnight (now - 30 * usPerDay), now)
        else
          match searchLastNumUnit range_type with
          | some nu => fallbackSearchBranch now nu.1 nu.2
          | none => (midnight (now - 7 * usPerDay), now)

/-- Line 264: hour, minute and second of the instant are all zero (the
microsecond is deliberately not inspected by the source). -/
def hmsZero (t : ℤ) : Bool := t.emod usPerDay < 1000000

/-- Lines 105-269: `get_date_range`.  `now` is the local wall-clock
instant (`datetime.now(tz)`) and `off` the timezone's UTC offset in
microseconds (fixed-offset model; DST transitions are out of scope);
the returned pair is in UTC.  Lines 263-266 extend an end that falls at
(up to the microsecond) local midnight, unless it is `now` itself, to
the end of that day. -/
def get_date_range (range_type : String) (off now : ℤ) : ℤ × ℤ :=
  let se := get_date_range_local range_type now
  let e2 :=
    if hmsZero se.2 && decide (se.2 ≠ now) then midnight se.2 + (usPerDay - 1)
    else se.2
  (se.1 - off, e2 - off)

/-! ## Concrete instances used by counterexamples and witnesses -/

/-- A line item of 100 at quantity 1. -/
def w_item : OrderItem :=
  { product_id := some "p1", platform_product_id := "1001",
    product_name := "Widget", quantity := 1, price := 100 }

/-- An order of 100 whose payload repeats its single line item — the
duplicate-line-item shape the rescaling guard exists for. -/
def c2_order : Order :=
  { total_price := 100, order_date := 0, order_items := [w_item, w_item],
    order_data := none }

/-- An order of 10 with no line items. -/
def c4_order : Order :=
  { total_price := 10, order_date := 0, order_items := [], order_data := none }

/-- A previous-period order of 5. -/
def c4_prev_order : Order :=
  { total_price := 5, order_date := 0, order_items := [], order_data := none }

/-- A line item with a negative price. -/
def c8_item : OrderItem :=
  { product_id := some "p1", platform_product_id := "1001",
    product_name := "Widget", quantity := 1, price := -5 }

/-- An order with a negative total price and a negative-priced item. -/
def c8_order : Order :=
  { total_price := -5, order_date := 0, order_items := [c8_item],
    order_data := none }

/-- A plain United States / NY / New York address. -/
def ny_addr : Address :=
  { country := some "US", province := some "NY", city := some "New York",
    district := none, barangay := none, suburb := none,
    address1 := none, address2 := none }

/-- A United States / CA / Los Angeles address. -/
def la_addr : Address :=
  { country := some "US", province := some "CA", city := some "Los Angeles",
    district := none, barangay := none, suburb := none,
    address1 := none, address2 := none }

/-- An order whose payload has a present-but-null `shipping_address` key
next to a perfectly usable `billing_address`. -/
def c9_order : Order :=
  { total_price := 50, order_date := 0, order_items := [],
    order_data := some
      { shipping_address := JVal.null, shipping := none, customer := none,
        billing_address := JVal.val ny_addr } }

/-- An order with a full explicit shipping address. -/
def c10_order1 : Order :=
  { total_price := 100, order_date := 0, order_items := [],
    order_data := some
      { shipping_address := JVal.val la_addr, shipping := none,
        customer := none, billing_address := JVal.absent } }

/-- An order carrying only a billing address. -/
def c10_order2 : Order :=
  { total_price := 50, order_date := 0, order_items := [],
    order_data := some
      { shipping_address := JVal.absent, shipping := none, customer := none,
        billing_address := JVal.val ny_addr } }

/-- The two-resolvable-order input of the geographic witness. -/
def c10_orders : List Order := [c10_order1, c10_order2]

/-- The Los Angeles city node of the geographic witness tree. -/
def c10_la_city : CityNode :=
  { name := "Los Angeles", total_orders := 1, total_sales := 100, districts := [] }

/-- The CA region node of the geographic witness tree. -/
def c10_ca_node : RegionNode :=
  { name := "CA", total_orders := 1, total_sales := 100, cities := [c10_la_city] }

/-- The NY region node of the geographic witness tree. -/
def c10_ny_node : RegionNode :=
  { name := "NY", total_orders := 1, total_sales := 50,
    cities := [{ name := "New York", total_orders := 1, total_sales := 50,
                 districts := [] }] }

/-- The tree the extractor builds for `c10_orders`. -/
def c10_us_node : CountryNode :=
  { country := "US", total_orders := 2, total_sales := 150,
    regions := [c10_ca_node, c10_ny_node] }

/-- An order of 10 at a given instant, with no items or payload. -/
def plain_order_at (t : ℤ) : Order :=
  { total_price := 10, order_date := t, order_items := [], order_data := none }

/-- Fifteen orders on two distinct calendar days, seven days apart (so
they share an hour-of-day/day-of-week bucket): nine at 10:00-10:08 of
day 19993 and six at 10:00-10:05 of day 20000. -/
def c6_orders : List Order :=
  [ plain_order_at (19993 * usPerDay + 10 * usPerHour + 0 * 60000000),
    plain_order_at (19993 * usPerDay + 10 * usPerHour + 1 * 60000000),
    plain_order_at (19993 * usPerDay + 10 * usPerHour + 2 * 60000000),
    plain_order_at (19993 * usPerDay + 10 * usPerHour + 3 * 60000000),
    plain_order_at (19993 * usPerDay + 10 * usPerHour + 4 * 60000000),
    plain_order_at (19993 * usPerDay + 10 * usPerHour + 5 * 60000000),
    plain_order_at (19993 * usPerDay + 10 * usPerHour + 6 * 60000000),
    plain_order_at (19993 * usPerDay + 10 * usPerHour + 7 * 60000000),
    plain_order_at (19993 * usPerDay + 10 * usPerHour + 8 * 60000000),
    plain_order_at (20000 * usPerDay + 10 * usPerHour + 0 * 60000000),
    plain_order_at (20000 * usPerDay + 10 * usPerHour + 1 * 60000000),
    plain_order_at (20000 * usPerDay + 10 * usPerHour + 2 * 60000000),
    plain_order_at (20000 * usPerDay + 10 * usPerHour + 3 * 60000000),
    plain_order_at (20000 * usPerDay + 10 * usPerHour + 4 * 60000000),
    plain_order_at (20000 * usPerDay + 10 * usPerHour + 5 * 60000000) ]

/-- The detection instant: day 20000 at 10:30 UTC. -/
def c6_now : ℤ := 20000 * usPerDay + 10 * usPerHour + 30 * 60000000

/-- The single recent hour bin of `c6_orders`: day 20000, 10:00. -/
def c6_bin : ℤ := 20000 * usPerDay + 10 * usPerHour

/-- The joined hourly row of `c6_orders`: six recent orders against a
15-order historical bucket over two observed days, hence an expected
count of `15 / (2/7) = 52.5`. -/
def c6_row : HourlyRow :=
  { hour_bin := c6_bin, count := 6, historical_count := 15, expected := 105 / 2 }

/-- The hourly anomaly record the detector emits for `c6_row`. -/
noncomputable def c6_rec : HourlyAnomaly :=
  { anomaly_type := "unusually_low_orders", hour_bin := c6_bin, value := 6,
    expected_value := 105 / 2, p_value := row_p_value c6_row,
    percentage_change := row_pct c6_row, severity := row_severity c6_row,
    title := "Low Order Rate Anomaly" }

/-- A local instant for resolver runs: 2024-03-15, 12:00 wall time. -/
def c3_now : ℤ := daysFromCivil 2024 3 15 * usPerDay + 12 * usPerHour

/-! ## General lemmas about the helper functions -/

/-- Stable insertion produces a permutation of consing. -/
theorem insSortAux_perm (le : α → α → Bool) (x : α) (l : List α) :
    (insSortAux le x l).Perm (x :: l) := by
  induction l with
  | nil => simp [insSortAux]
  | cons y ys ih =>
      by_cases h : le x y
      · simp [insSortAux, h]
      · simp only [insSortAux, h, if_neg, Bool.false_eq_true, if_false]
        exact (ih.cons y).trans (List.Perm.swap x y ys)

/-- The stable insertion sort permutes its input. -/
theorem insSort_perm (le : α → α → Bool) (l : List α) :
    (insSort le l).Perm l := by
  induction l with
  | nil => simp [insSort]
  | cons x xs ih => exact (insSortAux_perm le x (insSort le xs)).trans (ih.cons x)

/-- Membership is unchanged by the stable sort. -/
theorem insSort_mem (le : α → α → Bool) (l : List α) (a : α) :
    a ∈ insSort le l ↔ a ∈ l :=
  (insSort_perm le l).mem_iff

/-- Sums of a projection are unchanged by the stable sort. -/
theorem insSort_map_sum {M : Type} [AddCommMonoid M] (le : α → α → Bool)
    (l : List α) (g : α → M) :
    ((insSort le l).map g).sum = (l.map g).sum :=
  ((insSort_perm le l).map g).sum_eq

/-- The length is unchanged by the stable sort. -/
theorem insSort_length (le : α → α → Bool) (l : List α) :
    (insSort le l).length = l.length :=
  (insSort_perm le l).length_eq

/-- Updating one key of an accumulation map adds the update's delta to
the sum of any additive projection, also when the key is new. -/
theorem updOrInsert_map_sum {M : Type} [AddCommMonoid M] (g : β → M)
    (k : String) (f : β → β) (init : β) (δ : M)
    (hf : ∀ v, g (f v) = g v + δ) (hinit : g init = 0)
    (l : List (String × β)) :
    ((updOrInsert k f init l).map (fun kv => g kv.2)).sum
      = (l.map (fun kv => g kv.2)).sum + δ := by
  induction l with
  | nil => simp [updOrInsert, hf, hinit]
  | cons kv rest ih =>
      obtain ⟨k2, v⟩ := kv
      simp only [updOrInsert]
      by_cases h : k2 = k
      · rw [if_pos h]
        simp only [List.map_cons, List.sum_cons, hf]
        rw [add_right_comm]
      · rw [if_neg h]
        simp only [List.map_cons, List.sum_cons, ih]
        rw [← add_assoc]

/-- A pointwise property of the stored values survives updating one
key, provided the update and the freshly inserted value respect it. -/
theorem updOrInsert_forall {P : β → Prop} (k : String) (f : β → β) (init : β)
    (hf : ∀ v, P v → P (f v)) (hinit : P (f init)) :
    ∀ (l : List (String × β)), (∀ kv ∈ l, P kv.2) →
      ∀ kv ∈ updOrInsert k f init l, P kv.2
  | [], _ => by simpa [updOrInsert] using hinit
  | (k2, v) :: rest, hl => by
      intro kv2 h2
      simp only [updOrInsert] at h2
      by_cases h : k2 = k
      · rw [if_pos h] at h2
        rcases List.mem_cons.mp h2 with h3 | h3
        · rw [h3]
          exact hf v (hl (k2, v) (List.mem_cons_self _ _))
        · exact hl kv2 (List.mem_cons_of_mem _ h3)
      · rw [if_neg h] at h2
        rcases List.mem_cons.mp h2 with h3 | h3
        · rw [h3]
          exact hl (k2, v) (List.mem_cons_self _ _)
        · exact updOrInsert_forall k f init hf hinit rest
            (fun kv3 h4 => hl kv3 (List.mem_cons_of_mem _ h4)) kv2 h3

/-- Total sales are nonnegative on orders with nonnegative prices. -/
theorem total_sales_nonneg (orders : List Order)
    (h : ∀ o ∈ orders, 0 ≤ o.total_price) : 0 ≤ total_sales orders := by
  refine List.sum_nonneg ?_
  intro x hx
  obtain ⟨o, ho, rfl⟩ := List.mem_map.mp hx
  exact h o ho

/-! ## Claim C5: the comparison window -/

/-- Claim C5 counterexample: for the current period from 0 to 12:00 of
day 0 (a `today`-style period resolved mid-day), the comparison window
is the same half-day of the *previous* day, ending twelve hours before
the current period starts — not an interval ending where the current
one starts, as the claim requires. -/
theorem c5_counterexample :
    prev_period 0 43200000000 = (-86400000000, -43200000000)
      ∧ (prev_period 0 43200000000).2 ≠ 0 := by
  decide

/-- Claim C5 amended: the comparison order set is drawn from the current
window shifted back by `(end - start).days + 1` whole days: it always
has the same length and ends strictly before `start` (hence is
non-overlapping), but it is adjacent to the current window (ending at
`start - 1` microsecond, the closed-interval rendering of "ends where
the current one starts") only when `end - start + 1` is a whole number
of days, i.e. for periods that end on the last microsecond of a day;
for periods ending at "now" there is a gap. -/
theorem c5_shifted_comparison_window (s e : ℤ) (h : s ≤ e) :
    (prev_period s e).2 - (prev_period s e).1 = e - s
      ∧ (prev_period s e).2 < s
      ∧ (usPerDay ∣ e - s + 1 → (prev_period s e).2 = s - 1) := by
  have hD : (0 : ℤ) < usPerDay := by norm_num [usPerDay]
  refine ⟨by simp only [prev_period]; ring, ?_, ?_⟩
  · have h2 : e - s < ((e - s).fdiv usPerDay + 1) * usPerDay := by
      rw [Int.fdiv_eq_ediv _ (le_of_lt hD)]
      exact Int.lt_ediv_add_one_mul_self (e - s) hD
    simp only [prev_period]
    linarith
  · rintro ⟨k, hk⟩
    have hk1 : (1 : ℤ) ≤ k := by nlinarith
    have h3 : (e - s).fdiv usPerDay = k - 1 := by
      have h4 : e - s = (usPerDay - 1) + (k - 1) * usPerDay := by linarith
      rw [h4, Int.fdiv_eq_ediv _ (le_of_lt hD),
        Int.add_mul_ediv_right _ _ (ne_of_gt hD),
        Int.ediv_eq_zero_of_lt (by linarith) (by linarith)]
      ring
    simp only [prev_period, h3]
    linarith

/-- Claim C5 witness: for a current period covering exactly the whole
of day 0 (ending on its last microsecond), the amended statement gives
an equal-length comparison window ending one microsecond before the
current start. -/
theorem c5_shifted_comparison_window_witness :
    (prev_period 0 86399999999).2 - (prev_period 0 86399999999).1 = 86399999999
      ∧ (prev_period 0 86399999999).2 < 0
      ∧ (prev_period 0 86399999999).2 = 0 - 1 := by
  have h := c5_shifted_comparison_window 0 86399999999 (by norm_num)
  exact ⟨by simpa using h.1, h.2.1, h.2.2 (by decide)⟩

/-! ## Claim C8: error semantics of the aggregation -/

/-- Claim C8 counterexample: the aggregation performs no input
validation and never signals `InvalidInput`: on an order with a
negative total price and a negative-priced line item it simply returns
the computed summary (note the embedding is a total function translated
from a source with no validation or raise path).  The claim's "signals
`InvalidInput` if some order references a negative quantity or price"
is false on this input. -/
theorem c8_counterexample :
    (get_sales_data [c8_order] [] 10 10).total_sales = -5
      ∧ (get_sales_data [c8_order] [] 10 10).total_orders = 1
      ∧ (get_sales_data [c8_order] [] 10 10).average_order_value = -5
      ∧ (get_sales_data [c8_order] [] 10 10).top_products
          = [ProductRec.mk "Widget" (-5) 1 1] := by
  refine ⟨?_, rfl, ?_, ?_⟩
  · norm_num [get_sales_data, total_sales, c8_order]
  · norm_num [get_sales_data, average_order_value, total_sales, c8_order]
  · norm_num [get_sales_data, top_products, sorted_by_revenue,
      products_with_growth, rescaled_product_sales, total_product_revenue,
      product_sales, add_item, updOrInsert, product_key, total_sales,
      prev_product_sales, assocFind?, insSort, insSortAux, scale_factor,
      c8_order, c8_item]

/-- Claim C8 amended: the aggregation never signals `InvalidInput`; it
is a total computation that, even on negative quantities or prices,
returns the computed figures, and on an empty order set degrades
gracefully to zero metrics and empty lists rather than throwing. -/
theorem c8_total_and_graceful (tN bN : ℕ) :
    (get_sales_data [] [] tN bN).total_sales = 0
      ∧ (get_sales_data [] [] tN bN).total_orders = 0
      ∧ (get_sales_data [] [] tN bN).average_order_value = 0
      ∧ (get_sales_data [] [] tN bN).sales_change = 0
      ∧ (get_sales_data [] [] tN bN).orders_change = 0
      ∧ (get_sales_data [] [] tN bN).aov_change = 0
      ∧ (get_sales_data [] [] tN bN).top_products = []
      ∧ (get_sales_data [] [] tN bN).bottom_products = []
      ∧ (get_sales_data [] [] tN bN).growing_products = []
      ∧ (get_sales_data [] [] tN bN).declining_products = [] := by
  have hresc : rescaled_product_sales [] = [] := by
    simp [rescaled_product_sales, total_product_revenue, total_sales, product_sales]
  have hg : products_with_growth [] [] = [] := by
    simp [products_with_growth, hresc]
  have hs : sorted_by_revenue [] [] = [] := by
    simp [sorted_by_revenue, hg, insSort]
  have hsg : sorted_by_growth [] [] = [] := by
    simp [sorted_by_growth, hg, insSort]
  refine ⟨rfl, rfl, rfl, rfl, rfl, rfl, ?_, ?_, ?_, ?_⟩
  · simp [get_sales_data, top_products, hs]
  · simp only [get_sales_data, bottom_products, hs, List.length_nil, pyTakeLast]
    rcases Nat.eq_zero_or_pos bN with hb | hb
    · simp [hb]
    · rw [if_neg (by omega)]
      rfl
  · simp [get_sales_data, growing_products, hsg]
  · simp [get_sales_data, declining_products, declining_candidates, hsg]

/-! ## Claim C4: zero-guarded ratio computations -/

/-- Claim C4: the average order value is `total_sales / total_orders`
for a non-empty period and `0` for an empty one, and each
period-over-period delta is `(current - previous) / previous` when the
previous value is positive and `0` when it is zero; every ratio in the
aggregation carries such an explicit zero-denominator branch, so none
can raise a division fault. -/
theorem c4_zero_guarded_ratios (orders prev_orders : List Order) (tN bN : ℕ) :
    (0 < orders.length →
      (get_sales_data orders prev_orders tN bN).average_order_value
        = total_sales orders / (orders.length : ℚ))
    ∧ (orders.length = 0 →
      (get_sales_data orders prev_orders tN bN).average_order_value = 0)
    ∧ (0 < total_sales prev_orders →
      (get_sales_data orders prev_orders tN bN).sales_change
        = (total_sales orders - total_sales prev_orders) / total_sales prev_orders)
    ∧ (total_sales prev_orders = 0 →
      (get_sales_data orders prev_orders tN bN).sales_change = 0)
    ∧ (0 < prev_orders.length →
      (get_sales_data orders prev_orders tN bN).orders_change
        = ((orders.length : ℚ) - (prev_orders.length : ℚ)) / (prev_orders.length : ℚ))
    ∧ (prev_orders.length = 0 →
      (get_sales_data orders prev_orders tN bN).orders_change = 0)
    ∧ (0 < average_order_value prev_orders →
      (get_sales_data orders prev_orders tN bN).aov_change
        = (average_order_value orders - average_order_value prev_orders)
            / average_order_value prev_orders)
    ∧ (average_order_value prev_orders = 0 →
      (get_sales_data orders prev_orders tN bN).aov_change = 0) := by
  refine ⟨?_, ?_, ?_, ?_, ?_, ?_, ?_, ?_⟩
  · intro h
    simp [get_sales_data, average_order_value, h]
  · intro h
    simp [get_sales_data, average_order_value, h]
  · intro h
    simp [get_sales_data, sales_change, h]
  · intro h
    simp [get_sales_data, sales_change, h]
  · intro h
    have h2 : (0 : ℚ) < (prev_orders.length : ℚ) := by exact_mod_cast h
    simp [get_sales_data, orders_change, h2]
  · intro h
    simp [get_sales_data, orders_change, h]
  · intro h
    simp [get_sales_data, aov_change, h]
  · intro h
    simp [get_sales_data, aov_change, h]

/-- Claim C4 witness: the positive branches at a one-order period
against a one-order previous period, and the zero branches at empty
inputs. -/
theorem c4_zero_guarded_ratios_witness :
    (get_sales_data [c4_order] [c4_prev_order] 10 10).average_order_value
        = total_sales [c4_order] / ((1 : ℕ) : ℚ)
      ∧ (get_sales_data [c4_order] [c4_prev_order] 10 10).sales_change
        = (total_sales [c4_order] - total_sales [c4_prev_order])
            / total_sales [c4_prev_order]
      ∧ (get_sales_data [c4_order] [c4_prev_order] 10 10).orders_change
        = (((1 : ℕ) : ℚ) - ((1 : ℕ) : ℚ)) / ((1 : ℕ) : ℚ)
      ∧ (get_sales_data [c4_order] [c4_prev_order] 10 10).aov_change
        = (average_order_value [c4_order] - average_order_value [c4_prev_order])
            / average_order_value [c4_prev_order]
      ∧ (get_sales_data [] [] 10 10).average_order_value = 0
      ∧ (get_sales_data [] [] 10 10).sales_change = 0
      ∧ (get_sales_data [] [] 10 10).orders_change = 0
      ∧ (get_sales_data [] [] 10 10).aov_change = 0 := by
  have hA := c4_zero_guarded_ratios [c4_order] [c4_prev_order] 10 10
  have hB := c4_zero_guarded_ratios [] [] 10 10
  have hp : (0 : ℚ) < total_sales [c4_prev_order] := by
    norm_num [total_sales, c4_prev_order]
  have ha : (0 : ℚ) < average_order_value [c4_prev_order] := by
    norm_num [average_order_value, total_sales, c4_prev_order]
  exact ⟨hA.1 (by norm_num), hA.2.2.1 hp, hA.2.2.2.2.1 (by norm_num),
    hA.2.2.2.2.2.2.1 ha, hB.2.1 rfl, hB.2.2.2.1 rfl, hB.2.2.2.2.2.1 rfl,
    hB.2.2.2.2.2.2.2 rfl⟩

/-! ## Claim C2: the revenue rescaling guard -/

/-- Claim C2: on a non-empty order set with nonnegative order totals,
if the grouped product revenue exceeds the order revenue total by more
than 10% every product revenue is uniformly multiplied by
`total_sales / total_product_revenue`; the rescaling happens on the
grouped map from which every ranking list is then taken (`top_products`
is literally a prefix of the rescaled, growth-annotated map sorted by
revenue); and the reported product revenues always sum to at most
`total_sales * 1.1`. -/
theorem c2_rescaling_guard (orders prev_orders : List Order) (tN bN : ℕ)
    (hne : orders ≠ []) (hpos : ∀ o ∈ orders, 0 ≤ o.total_price) :
    ((rescaled_product_sales orders).map (fun kv => kv.2.revenue)).sum
        ≤ total_sales orders * (11 / 10)
      ∧ (get_sales_data orders prev_orders tN bN).top_products
        = (insSort by_revenue_desc (products_with_growth orders prev_orders)).take tN
      ∧ (total_product_revenue orders > total_sales orders * (11 / 10) →
          rescaled_product_sales orders
            = (product_sales orders).map (fun kv =>
                (kv.1, { kv.2 with revenue := kv.2.revenue * scale_factor orders }))) := by
  have hts : 0 ≤ total_sales orders := total_sales_nonneg orders hpos
  refine ⟨?_, rfl, ?_⟩
  · by_cases hc : total_product_revenue orders > total_sales orders * (11 / 10)
    · have htpr : 0 < total_product_revenue orders :=
        lt_of_le_of_lt (by nlinarith) hc
      simp only [rescaled_product_sales, if_pos hc, if_pos htpr, List.map_map]
      have hcomp :
          ((fun kv : String × ProductSales => kv.2.revenue) ∘
            (fun kv : String × ProductSales =>
              (kv.1, { kv.2 with revenue := kv.2.revenue * scale_factor orders })))
          = fun kv : String × ProductSales => kv.2.revenue * scale_factor orders := rfl
      rw [hcomp, List.sum_map_mul_right]
      have h2 : (((product_sales orders).map
          (fun kv : String × ProductSales => kv.2.revenue)).sum)
          = total_product_revenue orders := rfl
      rw [h2, scale_factor, mul_comm, div_mul_cancel₀ _ (ne_of_gt htpr)]
      nlinarith
    · push_neg at hc
      have h2 : rescaled_product_sales orders = product_sales orders := by
        simp only [rescaled_product_sales, if_neg (not_lt.mpr hc)]
      rw [h2]
      exact hc
  · intro hc
    have htpr : 0 < total_product_revenue orders :=
      lt_of_le_of_lt (by nlinarith) hc
    simp only [rescaled_product_sales, if_pos hc, if_pos htpr]

/-- Claim C2 witness: one order of 100 whose payload carries its line
item twice, so the grouped revenue (200) exceeds the total (100) by
more than 10% and gets rescaled back to 100, within the 110 bound. -/
theorem c2_rescaling_guard_witness :
    ((rescaled_product_sales [c2_order]).map (fun kv => kv.2.revenue)).sum
        ≤ total_sales [c2_order] * (11 / 10)
      ∧ (get_sales_data [c2_order] [] 10 10).top_products
        = (insSort by_revenue_desc (products_with_growth [c2_order] [])).take 10
      ∧ (total_product_revenue [c2_order] > total_sales [c2_order] * (11 / 10) →
          rescaled_product_sales [c2_order]
            = (product_sales [c2_order]).map (fun kv =>
                (kv.1, { kv.2 with revenue := kv.2.revenue * scale_factor [c2_order] }))) :=
  c2_rescaling_guard [c2_order] [] 10 10 (by simp)
    (by
      intro o ho
      rw [List.mem_singleton.mp ho]
      norm_num [c2_order])

/-! ## Claim C9: address resolution -/

/-- Claim C9 counterexample: an order whose payload carries a
present-but-null `shipping_address` key next to a perfectly usable
billing address is skipped entirely — the billing address is *not*
tried as a last resort, because the `elif` chain dispatches on key
presence, not on successful extraction. -/
theorem c9_counterexample :
    extract_geo_data_from_orders [c9_order] = []
      ∧ c9_order.order_data = some
          { shipping_address := JVal.null, shipping := none, customer := none,
            billing_address := JVal.val ny_addr } :=
  ⟨rfl, rfl⟩

/-- Claim C9 amended: the resolver picks the first *present* candidate
key (explicit shipping address, then nested shipping-object address,
then customer default address, then first customer address, then
billing address); a selected candidate holding no usable value ends the
chain and the order is silently skipped even when a later candidate
(such as billing) is resolvable.  An order whose payload contains only
a billing address does contribute, and an unresolvable order
contributes nothing to the tree without erroring. -/
theorem c9_presence_dispatch (od : OrderData) (a : Address) (o : Order)
    (rest : List Order) :
    (od.shipping_address = JVal.absent → od.shipping = none →
      od.customer = none → od.billing_address = JVal.val a →
      resolve_shipping_address od = some a)
    ∧ (od.shipping_address = JVal.null → resolve_shipping_address od = none)
    ∧ ((o.order_data = none ∨
        ∃ od2, o.order_data = some od2 ∧ resolve_shipping_address od2 = none) →
      extract_geo_data_from_orders (o :: rest) = extract_geo_data_from_orders rest) := by
  refine ⟨?_, ?_, ?_⟩
  · intro h1 h2 h3 h4
    simp [resolve_shipping_address, h1, h2, h3, h4]
  · intro h1
    simp [resolve_shipping_address, h1]
  · intro h
    have hp : process_order_geo [] o = [] := by
      rcases h with h | ⟨od2, h1, h2⟩
      · simp [process_order_geo, h]
      · simp [process_order_geo, h1, h2]
    simp only [extract_geo_data_from_orders, geo_acc, List.foldl_cons, hp]

/-- Claim C9 witness: a billing-only payload resolves to its billing
address; a null-`shipping_address` payload resolves to nothing; and the
skipped order of the counterexample leaves the tree exactly as without
it. -/
theorem c9_presence_dispatch_witness :
    resolve_shipping_address
        { shipping_address := JVal.absent, shipping := none, customer := none,
          billing_address := JVal.val ny_addr } = some ny_addr
      ∧ resolve_shipping_address
        { shipping_address := JVal.null, shipping := none, customer := none,
          billing_address := JVal.val ny_addr } = none
      ∧ extract_geo_data_from_orders [c9_order] = extract_geo_data_from_orders [] :=
  ⟨(c9_presence_dispatch
      { shipping_address := JVal.absent, shipping := none, customer := none,
        billing_address := JVal.val ny_addr } ny_addr c9_order []).1 rfl rfl rfl rfl,
   (c9_presence_dispatch
      { shipping_address := JVal.null, shipping := none, customer := none,
        billing_address := JVal.val ny_addr } ny_addr c9_order []).2.1 rfl,
   (c9_presence_dispatch
      { shipping_address := JVal.null, shipping := none, customer := none,
        billing_address := JVal.val ny_addr } ny_addr c9_order []).2.2
     (Or.inr ⟨_, rfl, rfl⟩)⟩

/-! ## Claim C10: the geographic tree reconciles -/

/-- Bumping a city keeps its district children summing to at most its
totals, for a nonnegative price. -/
theorem bump_city_ok (loc : Loc) (price : ℚ) (hp : 0 ≤ price) (ci : CityAcc)
    (h : cityAccOk ci) : cityAccOk (bump_city loc price ci) := by
  obtain ⟨h1, h2⟩ := h
  constructor
  · simp only [bump_city]
    by_cases hd : loc.district ≠ "Unknown District"
    · rw [if_pos hd,
        updOrInsert_map_sum (fun d : DistrictAcc => d.total_orders) loc.district
          (bump_district price) (DistrictAcc.mk 0 0) 1 (fun v => rfl) rfl]
      omega
    · rw [if_neg hd]
      omega
  · simp only [bump_city]
    by_cases hd : loc.district ≠ "Unknown District"
    · rw [if_pos hd,
        updOrInsert_map_sum (fun d : DistrictAcc => d.total_sales) loc.district
          (bump_district price) (DistrictAcc.mk 0 0) price (fun v => rfl) rfl]
      linarith
    · rw [if_neg hd]
      linarith

/-- Bumping a region keeps its totals equal to the sums of its cities'
and its cities consistent. -/
theorem bump_region_ok (loc : Loc) (price : ℚ) (hp : 0 ≤ price) (r : RegionAcc)
    (h : regionAccOk r) : regionAccOk (bump_region loc price r) := by
  obtain ⟨h1, h2, h3⟩ := h
  refine ⟨?_, ?_, ?_⟩
  · simp only [bump_region]
    rw [updOrInsert_map_sum (fun ci : CityAcc => ci.total_orders) loc.city
      (bump_city loc price) (CityAcc.mk 0 0 []) 1 (fun v => rfl) rfl]
    omega
  · simp only [bump_region]
    rw [updOrInsert_map_sum (fun ci : CityAcc => ci.total_sales) loc.city
      (bump_city loc price) (CityAcc.mk 0 0 []) price (fun v => rfl) rfl]
    linarith
  · exact updOrInsert_forall loc.city (bump_city loc price) (CityAcc.mk 0 0 [])
      (bump_city_ok loc price hp) (bump_city_ok loc price hp _ ⟨le_refl 0, le_refl 0⟩)
      r.cities h3

/-- Bumping a country keeps its totals equal to the sums of its
regions' and its regions consistent. -/
theorem bump_country_ok (loc : Loc) (price : ℚ) (hp : 0 ≤ price)
    (c : CountryAcc) (h : countryAccOk c) : countryAccOk (bump_country loc price c) := by
  obtain ⟨h1, h2, h3⟩ := h
  refine ⟨?_, ?_, ?_⟩
  · simp only [bump_country]
    rw [updOrInsert_map_sum (fun r : RegionAcc => r.total_orders) loc.province
      (bump_region loc price) (RegionAcc.mk 0 0 []) 1 (fun v => rfl) rfl]
    omega
  · simp only [bump_country]
    rw [updOrInsert_map_sum (fun r : RegionAcc => r.total_sales) loc.province
      (bump_region loc price) (RegionAcc.mk 0 0 []) price (fun v => rfl) rfl]
    linarith
  · refine updOrInsert_forall loc.province (bump_region loc price)
      (RegionAcc.mk 0 0 []) (bump_region_ok loc price hp) ?_ c.regions h3
    exact bump_region_ok loc price hp _ ⟨rfl, rfl, by intro kv hkv; cases hkv⟩

/-- Every accumulator produced by folding orders with nonnegative
totals is internally consistent. -/
theorem geo_acc_inv_aux (orders : List Order)
    (hp : ∀ o ∈ orders, 0 ≤ o.total_price) :
    ∀ (g : List (String × CountryAcc)), (∀ kv ∈ g, countryAccOk kv.2) →
      ∀ kv ∈ orders.foldl process_order_geo g, countryAccOk kv.2 := by
  induction orders with
  | nil => intro g hg; simpa using hg
  | cons o rest ih =>
      intro g hg
      rw [List.foldl_cons]
      refine ih (fun o2 ho2 => hp o2 (List.mem_cons_of_mem o ho2)) _ ?_
      have hpo : 0 ≤ o.total_price := hp o (List.mem_cons_self o rest)
      rcases h1 : o.order_data with _ | od
      · simp only [process_order_geo, h1]
        exact hg
      · rcases h2 : resolve_shipping_address od with _ | sa
        · simp only [process_order_geo, h1, h2]
          exact hg
        · simp only [process_order_geo, h1, h2, add_order_geo]
          exact updOrInsert_forall _ _ _
            (bump_country_ok (extract_location sa) o.total_price hpo)
            (bump_country_ok _ _ hpo _ ⟨rfl, rfl, by intro kv hkv; cases hkv⟩) g hg

/-- The accumulation maps of the extractor are internally consistent. -/
theorem geo_acc_inv (orders : List Order)
    (hp : ∀ o ∈ orders, 0 ≤ o.total_price) :
    ∀ kv ∈ geo_acc orders, countryAccOk kv.2 :=
  geo_acc_inv_aux orders hp [] (by intro kv hkv; cases hkv)

/-- Conversion of a consistent city accumulator yields a consistent
city node. -/
theorem to_city_node_ok (kv : String × CityAcc) (h : cityAccOk kv.2) :
    city_node_ok (to_city_node kv) := by
  obtain ⟨h1, h2⟩ := h
  constructor
  · simpa [to_city_node, city_node_ok, insSort_map_sum, List.map_map,
      Function.comp] using h1
  · simpa [to_city_node, city_node_ok, insSort_map_sum, List.map_map,
      Function.comp] using h2

/-- Conversion of a consistent region accumulator yields a consistent
region node with consistent cities. -/
theorem to_region_node_ok (kv : String × RegionAcc) (h : regionAccOk kv.2) :
    region_node_ok (to_region_node kv)
      ∧ ∀ ci ∈ (to_region_node kv).cities, city_node_ok ci := by
  obtain ⟨h1, h2, h3⟩ := h
  refine ⟨⟨?_, ?_⟩, ?_⟩
  · simpa [to_region_node, insSort_map_sum, List.map_map, Function.comp,
      to_city_node] using h1
  · simpa [to_region_node, insSort_map_sum, List.map_map, Function.comp,
      to_city_node] using h2
  · intro ci hci
    rw [to_region_node] at hci
    simp only [insSort_mem, List.mem_map] at hci
    obtain ⟨kv2, hkv2, rfl⟩ := hci
    exact to_city_node_ok kv2 (h3 kv2 hkv2)

/-- Conversion of a consistent country accumulator yields a consistent
country node with consistent regions and cities. -/
theorem to_country_node_ok (kv : String × CountryAcc) (h : countryAccOk kv.2) :
    country_node_ok (to_country_node kv)
      ∧ ∀ r ∈ (to_country_node kv).regions,
          region_node_ok r ∧ ∀ ci ∈ r.cities, city_node_ok ci := by
  obtain ⟨h1, h2, h3⟩ := h
  refine ⟨⟨?_, ?_⟩, ?_⟩
  · simpa [to_country_node, insSort_map_sum, List.map_map, Function.comp,
      to_region_node] using h1
  · simpa [to_country_node, insSort_map_sum, List.map_map, Function.comp,
      to_region_node] using h2
  · intro r hr
    rw [to_country_node] at hr
    simp only [insSort_mem, List.mem_map] at hr
    obtain ⟨kv2, hkv2, rfl⟩ := hr
    exact to_region_node_ok kv2 (h3 kv2 hkv2)

/-- Claim C10: over orders with (well-formed) nonnegative totals, every
country node's order count and sales equal the sums of its region
children's, every region node's equal the sums of its city children's,
and a city's district children (attached only when explicitly present)
sum to at most the city's own totals. -/
theorem c10_geo_tree_reconciles (orders : List Order)
    (hp : ∀ o ∈ orders, 0 ≤ o.total_price) :
    ∀ c ∈ extract_geo_data_from_orders orders,
      country_node_ok c
        ∧ ∀ r ∈ c.regions, region_node_ok r ∧ ∀ ci ∈ r.cities, city_node_ok ci := by
  intro c hc
  rw [extract_geo_data_from_orders, insSort_mem] at hc
  obtain ⟨kv, hkv, rfl⟩ := List.mem_map.mp hc
  exact to_country_node_ok kv (geo_acc_inv orders hp kv hkv)

/-- The extractor's tree over the two-order witness input: one country
(US) with two region children. -/
theorem geo_c10_eval : extract_geo_data_from_orders c10_orders = [c10_us_node] := by
  simp +decide [extract_geo_data_from_orders, geo_acc, process_order_geo,
    c10_orders, c10_order1, c10_order2, resolve_shipping_address,
    extract_location, add_order_geo, bump_country, bump_region, bump_city,
    updOrInsert, la_addr, ny_addr, insSort, insSortAux, to_country_node,
    to_region_node, to_city_node, country_by_sales_desc, region_by_sales_desc,
    city_by_sales_desc, pyLower, pyStrip, isPySpace, c10_us_node, c10_ca_node,
    c10_ny_node, c10_la_city]
  norm_num

/-- Claim C10 witness: on one full-shipping-address order (US/CA/Los
Angeles, 100) and one billing-only order (US/NY/New York, 50), the
extracted US node, its CA region and its Los Angeles city all
reconcile. -/
theorem c10_geo_tree_reconciles_witness :
    country_node_ok c10_us_node
      ∧ region_node_ok c10_ca_node
      ∧ city_node_ok c10_la_city := by
  have hp : ∀ o ∈ c10_orders, 0 ≤ o.total_price := by
    intro o ho
    simp only [c10_orders, List.mem_cons, List.not_mem_nil, or_false] at ho
    rcases ho with rfl | rfl
    · norm_num [c10_order1]
    · norm_num [c10_order2]
  have h := c10_geo_tree_reconciles c10_orders hp c10_us_node
    (by rw [geo_c10_eval]; exact List.mem_singleton.mpr rfl)
  have h2 := h.2 c10_ca_node (List.mem_cons_self _ _)
  exact ⟨h.1, h2.1, h2.2 c10_la_city (List.mem_cons_self _ _)⟩

/-! ## Claims C1, C6, C7: the anomaly detection engine -/

/-- The one-sided Poisson tail of six observed orders against an
expected count of 52.5 is far below the strictest severity cutoff. -/
theorem poisson_tail_small_at_c6 : poisson_cdf (105 / 2 : ℚ) 6 < 1 / 1000 := by
  have hcast : (((105 : ℚ) / 2 : ℚ) : ℝ) = 105 / 2 := by norm_num
  rw [poisson_cdf, hcast]
  have hS : ((List.range 7).map
      (fun i => ((105 : ℝ) / 2) ^ i / (Nat.factorial i : ℝ))).sum ≤ 33000000 := by
    simp [List.range_succ, Nat.factorial]
    norm_num
  have hexp : (33000000000 : ℝ) < Real.exp (105 / 2) := by
    have h1 : Real.exp (52 : ℝ) ≤ Real.exp (105 / 2 : ℝ) :=
      Real.exp_le_exp.mpr (by norm_num)
    have h2 : Real.exp (52 : ℝ) = Real.exp 1 ^ (52 : ℕ) := by
      rw [show (52 : ℝ) = ((52 : ℕ) : ℝ) * 1 by norm_num, Real.exp_nat_mul]
    have h3 : ((27 : ℝ) / 10) ^ (52 : ℕ) < Real.exp 1 ^ (52 : ℕ) :=
      pow_lt_pow_left₀ (lt_trans (by norm_num) Real.exp_one_gt_d9)
        (by norm_num) (by norm_num)
    have h4 : (33000000000 : ℝ) < ((27 : ℝ) / 10) ^ (52 : ℕ) := by
      rw [div_pow, lt_div_iff₀ (by positivity)]
      norm_num
    linarith
  have hepos := Real.exp_pos ((105 : ℝ) / 2)
  rw [show (-((105 : ℝ) / 2)) = -(105 / 2 : ℝ) by norm_num, Real.exp_neg,
    inv_mul_lt_iff₀ hepos]
  calc ((List.range 7).map
      (fun i => ((105 : ℝ) / 2) ^ i / (Nat.factorial i : ℝ))).sum
      ≤ 33000000 := hS
    _ < Real.exp (105 / 2) * (1 / 1000) := by linarith

/-- The hourly pipeline of the fifteen-order input joins its single
recent bin (six orders) with the fifteen-order historical bucket spread
over two observed days. -/
theorem hourly_rows_at_c6 : hourly_rows c6_now c6_orders = [c6_row] := by
  simp +decide [hourly_rows, recent_orders_of, hour_bins, bin_count,
    distinct_sorted, distinct_days_count, c6_orders, plain_order_at, c6_now,
    c6_bin, c6_row, usPerDay, usPerHour, dayOf, hourOf, dowOf, hourFloor,
    insSort, insSortAux, qmean]
  norm_num

/-- The joined row is in the far-low tail. -/
theorem row_p_value_at_c6 : row_p_value c6_row < 1 / 1000 := by
  have h6 : ¬ ((c6_row.count : ℚ) > c6_row.expected) := by norm_num [c6_row]
  rw [row_p_value, if_neg h6]
  exact poisson_tail_small_at_c6

/-- The joined row gets the maximal severity. -/
theorem row_severity_at_c6 : row_severity c6_row = 5 := by
  rw [row_severity, if_pos row_p_value_at_c6]

/-- The hourly sub-detector flags the recent bin of the fifteen-order
input. -/
theorem hourly_detector_at_c6 :
    detect_hourly_order_anomalies c6_now c6_orders = [c6_rec] := by
  have hlen : ¬ (recent_orders_of c6_now c6_orders).length < 5 := by decide
  have hp05 : row_p_value c6_row < 1 / 20 :=
    lt_trans row_p_value_at_c6 (by norm_num)
  have h6 : ¬ ((c6_row.count : ℚ) > c6_row.expected) := by norm_num [c6_row]
  have hcond : ¬ (row_severity c6_row < 3 ∧ |row_pct c6_row| < 1 / 2) := by
    rw [row_severity_at_c6]
    rintro ⟨h1, -⟩
    omega
  simp only [detect_hourly_order_anomalies]
  rw [if_neg hlen, hourly_rows_at_c6]
  simp only [List.filter_cons, List.filter_nil, decide_eq_true hp05, if_pos,
    if_true]
  rw [show decide (c6_now - 12 * usPerHour ≤ c6_row.hour_bin) = true by decide]
  simp only [if_true, List.filterMap_cons, List.filterMap_nil]
  rw [if_neg hcond]
  simp only [if_neg h6]
  rfl

/-- The daily-sales sub-detector sees only two distinct days in the
fifteen-order input and returns nothing. -/
theorem daily_detector_at_c6 (d : ℤ) :
    detect_daily_sales_anomalies d c6_orders = [] := by
  have hlen : (daily_sales_groups c6_orders).length < 5 := by
    simp only [daily_sales_groups, List.length_map]
    decide
  simp only [detect_daily_sales_anomalies]
  rw [if_pos hlen]

/-- The average-order-value sub-detector likewise returns nothing. -/
theorem aov_detector_at_c6 (d : ℤ) :
    detect_aov_anomalies d c6_orders = [] := by
  have hlen : (daily_aov_groups c6_orders).length < 5 := by
    simp only [daily_aov_groups, List.length_map]
    decide
  simp only [detect_aov_anomalies]
  rw [if_pos hlen]

/-- The full detection run on the fifteen-order input returns exactly
the hourly record. -/
theorem detect_anomalies_at_c6 :
    detect_anomalies c6_now 0 c6_orders = [AnomalyRecord.hourly c6_rec] := by
  have hn : ¬ c6_orders.length < 10 := by decide
  simp only [detect_anomalies]
  rw [if_neg hn, daily_detector_at_c6, aov_detector_at_c6, hourly_detector_at_c6]
  simp

/-- Claim C6 counterexample: an input of fifteen orders spanning only
two distinct order days (below the claimed five-day minimum) on which
the detection run nevertheless returns an anomaly: the top-level gate
only counts orders, and the hourly sub-detector has no distinct-day
minimum of its own. -/
theorem c6_counterexample :
    10 ≤ c6_orders.length
      ∧ distinct_days_count c6_orders = 2
      ∧ detect_anomalies c6_now 0 c6_orders ≠ [] := by
  refine ⟨by decide, by decide, ?_⟩
  rw [detect_anomalies_at_c6]
  simp

/-- Claim C6 amended: the run returns an empty list whenever the input
has fewer than ten orders; below five distinct order days the
daily-sales and average-order-value sub-detectors emit nothing; the
hourly sub-detector's own gate is instead five orders in the trailing
48 hours, so it can emit records for inputs spanning fewer than five
distinct days. -/
theorem c6_minimum_data_gates (now off : ℤ) (orders : List Order) :
    (orders.length < 10 → detect_anomalies now off orders = [])
      ∧ (distinct_days_count orders < 5 →
          (∀ d : ℤ, detect_daily_sales_anomalies d orders = [])
            ∧ ∀ d : ℤ, detect_aov_anomalies d orders = [])
      ∧ ((recent_orders_of now orders).length < 5 →
          detect_hourly_order_anomalies now orders = []) := by
  refine ⟨?_, ?_, ?_⟩
  · intro h
    simp only [detect_anomalies]
    rw [if_pos h]
  · intro h
    constructor
    · intro d
      have hlen : (daily_sales_groups orders).length < 5 := by
        simpa [daily_sales_groups, distinct_sorted, insSort_length,
          distinct_days_count] using h
      simp only [detect_daily_sales_anomalies]
      rw [if_pos hlen]
    · intro d
      have hlen : (daily_aov_groups orders).length < 5 := by
        simpa [daily_aov_groups, distinct_sorted, insSort_length,
          distinct_days_count] using h
      simp only [detect_aov_anomalies]
      rw [if_pos hlen]
  · intro h
    simp only [detect_hourly_order_anomalies]
    rw [if_pos h]

/-- Claim C6 witness: a single order is below every gate, so the run
and each sub-detector return empty lists. -/
theorem c6_minimum_data_gates_witness :
    detect_anomalies 0 0 [plain_order_at 0] = []
      ∧ detect_daily_sales_anomalies 0 [plain_order_at 0] = []
      ∧ detect_aov_anomalies 0 [plain_order_at 0] = []
      ∧ detect_hourly_order_anomalies 0 [plain_order_at 0] = [] := by
  have h := c6_minimum_data_gates 0 0 [plain_order_at 0]
  exact ⟨h.1 (by decide), (h.2.1 (by decide)).1 0, (h.2.1 (by decide)).2 0,
    h.2.2 (by decide)⟩

/-- The hour floor never exceeds the instant. -/
theorem hourFloor_le (t : ℤ) : hourFloor t ≤ t := by
  rw [hourFloor, Int.fdiv_eq_ediv _ (by norm_num [usPerHour])]
  exact Int.ediv_mul_le t (by norm_num [usPerHour])

/-- Every joined hourly row's bin is the hour floor of some order that
is itself no later than `now`. -/
theorem hourly_row_bin_le (now : ℤ) (orders : List Order) (r : HourlyRow)
    (hr : r ∈ hourly_rows now orders)
    (hts : ∀ o ∈ orders, o.order_date ≤ now) : r.hour_bin ≤ now := by
  simp only [hourly_rows, List.mem_map] at hr
  obtain ⟨b, hb, rfl⟩ := hr
  simp only [hour_bins, distinct_sorted, insSort_mem, List.mem_dedup,
    List.mem_map] at hb
  obtain ⟨o, ho, rfl⟩ := hb
  simp only [recent_orders_of, List.mem_filter] at ho
  exact le_trans (hourFloor_le o.order_date) (hts o ho.1)

/-- Claim C7: every hourly order-rate anomaly record has a one-sided
Poisson tail probability below 0.05, a bin inside the trailing twelve
hours (and not in the future, for inputs whose orders do not postdate
`now`), and either severity at least 3 or an absolute percentage
deviation of at least 50%. -/
theorem c7_hourly_anomaly_filters (now : ℤ) (orders : List Order)
    (rec : HourlyAnomaly)
    (hmem : rec ∈ detect_hourly_order_anomalies now orders)
    (hts : ∀ o ∈ orders, o.order_date ≤ now) :
    rec.p_value < 1 / 20
      ∧ now - 12 * usPerHour ≤ rec.hour_bin
      ∧ rec.hour_bin ≤ now
      ∧ (3 ≤ rec.severity ∨ (1 / 2 : ℚ) ≤ |rec.percentage_change|) := by
  by_cases hlen : (recent_orders_of now orders).length < 5
  · rw [detect_hourly_order_anomalies, if_pos hlen] at hmem
    cases hmem
  · rw [detect_hourly_order_anomalies, if_neg hlen] at hmem
    obtain ⟨r, hr, hsome⟩ := List.mem_filterMap.mp hmem
    obtain ⟨hr12, h12b⟩ := List.mem_filter.mp hr
    obtain ⟨hrow, hpb⟩ := List.mem_filter.mp hr12
    have hp : row_p_value r < 1 / 20 := of_decide_eq_true hpb
    have h12 : now - 12 * usPerHour ≤ r.hour_bin := of_decide_eq_true h12b
    by_cases hcond : row_severity r < 3 ∧ |row_pct r| < 1 / 2
    · rw [if_pos hcond] at hsome
      cases hsome
    · rw [if_neg hcond] at hsome
      have hrec := (Option.some.injEq _ _).mp hsome
      have hbin : r.hour_bin ≤ now := hourly_row_bin_le now orders r hrow hts
      rw [← hrec]
      push_neg at hcond
      refine ⟨hp, h12, hbin, ?_⟩
      by_cases hs : row_severity r < 3
      · exact Or.inr (hcond hs)
      · exact Or.inl (Nat.le_of_not_lt hs)

/-- Claim C7 witness: the single record of the fifteen-order input
satisfies all three filters. -/
theorem c7_hourly_anomaly_filters_witness :
    c6_rec.p_value < 1 / 20
      ∧ c6_now - 12 * usPerHour ≤ c6_rec.hour_bin
      ∧ c6_rec.hour_bin ≤ c6_now
      ∧ (3 ≤ c6_rec.severity ∨ (1 / 2 : ℚ) ≤ |c6_rec.percentage_change|) :=
  c7_hourly_anomaly_filters c6_now c6_orders c6_rec
    (by rw [hourly_detector_at_c6]; exact List.mem_singleton.mpr rfl)
    (by decide)

/-- Claim C1 counterexample: running the engine over the fifteen-order
input with an empty insight store leaves a non-empty store behind: the
engine persisted its detected anomaly itself. -/
theorem c1_counterexample :
    (detect_anomalies_run [] c6_now 0 c6_orders).2 ≠ [] := by
  simp only [detect_anomalies_run]
  rw [detect_anomalies_at_c6]
  simp

/-- Claim C1 amended: the engine is read-only over its input orders and
returns the computed anomaly records, but it is not persistence-free:
before returning it writes one insight row per detected anomaly
(`insight_type = "anomaly"`, `is_anomaly = true`, the record's
severity) into the store itself; only alert *delivery* is left to the
caller. -/
theorem c1_engine_persists_insights (insights : List Insight) (now off : ℤ)
    (orders : List Order) :
    (detect_anomalies_run insights now off orders).1
        = detect_anomalies now off orders
      ∧ (detect_anomalies_run insights now off orders).2
        = insights ++ (detect_anomalies now off orders).map create_insight_record
      ∧ ∀ a : AnomalyRecord,
          (create_insight_record a).insight_type = "anomaly"
            ∧ (create_insight_record a).is_anomaly = true
            ∧ (create_insight_record a).severity = a.severity :=
  ⟨rfl, rfl, fun a => ⟨rfl, rfl, rfl⟩⟩

/-! ## Claim C3: fallbacks of the time range resolver -/

/-- Claim C3 counterexample: the malformed range spec
`specific_month_x` does not degrade to the documented `last_7_days`
default: the `specific_month_` branch's own exception handler falls
back to the last *30* days (at 2024-03-15 12:00 local time, offset 0,
it returns midnight of 2024-02-14 through now, which differs from the
`last_7_days` interval starting at midnight of 2024-03-08). -/
theorem c3_counterexample :
    get_date_range "specific_month_x" 0 c3_now
        = (midnight (c3_now - 30 * usPerDay), c3_now)
      ∧ get_date_range "specific_month_x" 0 c3_now
        ≠ (midnight (c3_now - 7 * usPerDay), c3_now) := by
  constructor
  · decide
  · decide

/-- Claim C3 amended: no malformed range spec raises — the resolver is
total — but the degradation default is branch-specific rather than
uniformly `last_7_days`: unrecognized specs (and failed dynamic parses)
degrade to the last 7 days, malformed `specific_month_` specs to the
last 30 days, and malformed `specific_date_` specs to today, in every
timezone and at every instant (the logging of the degradation is an
out-of-scope side effect). -/
theorem c3_branch_specific_fallbacks (off now : ℤ) :
    get_date_range "unparseable" off now
        = (midnight (now - 7 * usPerDay) - off, now - off)
      ∧ get_date_range "specific_month_x" off now
        = (midnight (now - 30 * usPerDay) - off, now - off)
      ∧ get_date_range "specific_date_x" off now
        = (midnight now - off, now - off) := by
  have hm : parseInts ["x"] = none := by decide
  refine ⟨?_, ?_, ?_⟩
  · simp +decide [get_date_range, get_date_range_local, matchDynamicRange,
      splitSub, splitSubAux, startsWithL, searchLastNumUnit,
      searchLastNumUnitAux, matchSearchAt, hmsZero]
  · simp +decide [get_date_range, get_date_range_local, matchDynamicRange,
      splitSub, splitSubAux, startsWithL, specificMonthBranch, hm, hmsZero]
  · simp +decide [get_date_range, get_date_range_local, matchDynamicRange,
      splitSub, splitSubAux, startsWithL, specificDateBranch, hm, hmsZero]
